import Mathlib

/-!
System resource monitor: rate derivation, sessions and rolling history.

A shallow embedding of `src/system_monitor/server.js` (the sampling function
`getSystemInfo`, the REST query and the Socket.IO connection handlers) and of
`src/system_monitor/public/app.js` (the client-side rolling history), followed
by the properties established about them.

Numbers: cumulative counters are natural numbers, derived rates and
percentages are rationals (division by `0.5` and by `1024` is exact on them).
Wall-clock readings (`Date.now()`, `toLocaleTimeString()`) and the outcome of
the `systeminformation` calls are inputs of the functions that read them.
-/

namespace SystemMonitor

/-! ## Server side: `server.js` -/

/-- Result of `si.disksIO()`: the cumulative read and write operation counters. -/
structure DiskIO where
  rIO : Nat
  wIO : Nat
deriving DecidableEq, Repr

/-- One entry of `si.networkStats()`. The address fields and error counters,
which `getSystemInfo` copies unchanged, are left out. -/
structure NetworkStat where
  iface : String
  operstate : String
  rx_bytes : Nat
  tx_bytes : Nat
deriving DecidableEq, Repr

/-- One entry of `si.graphics().controllers`; `utilizationGpu` may be undefined. -/
structure GpuController where
  model : String
  utilizationGpu : Option ℚ
deriving DecidableEq, Repr

/-- What the `Promise.all` of `getSystemInfo` resolves to, restricted to the
fields the history and the rate derivation read. `diskIO` is `none` when
`si.disksIO()` resolves to `null`. -/
structure RawSample where
  currentLoad : ℚ
  memUsed : Nat
  memTotal : Nat
  networkStats : List NetworkStat
  diskIO : Option DiskIO
  controllers : List GpuController
deriving DecidableEq, Repr

/-- The record `diskInfo.io`. -/
structure DiskIOInfo where
  read : Nat
  write : Nat
  readSpeed : ℚ
  writeSpeed : ℚ
deriving DecidableEq, Repr

/-- One element of `networkInfo`. -/
structure NetworkInfo where
  iface : String
  operstate : String
  rxBytes : Nat
  txBytes : Nat
  rxSpeed : ℚ
  txSpeed : ℚ
deriving DecidableEq, Repr

/-- One element of `gpuInfo`. -/
structure GpuInfo where
  model : String
  utilizationGpu : ℚ
deriving DecidableEq, Repr

/-- The object returned by the `try` block of `getSystemInfo`. -/
structure SystemInfo where
  timestamp : Nat
  cpuUsage : ℚ
  memoryUsagePercent : ℚ
  diskIO : DiskIOInfo
  network : List NetworkInfo
  gpu : List GpuInfo
deriving DecidableEq, Repr

/-- What `getSystemInfo` returns: the snapshot, or `{error, timestamp}` from
its `catch` block. -/
inductive Payload where
  | failure (error : String) (timestamp : Nat)
  | info (systemInfo : SystemInfo)
deriving DecidableEq, Repr

/-- The module-level variables `previousNetworkStats` and `previousDiskIO`
(both initially `null`). -/
structure Globals where
  previousNetworkStats : Option (List NetworkStat)
  previousDiskIO : Option DiskIO
deriving DecidableEq, Repr

/-- State at module load: `let previousNetworkStats = null; let previousDiskIO = null;`. -/
def Globals.initial : Globals :=
  { previousNetworkStats := none, previousDiskIO := none }

/-- The constant `const timeDiff = 0.5` used by both rate computations. -/
def timeDiff : ℚ := 1 / 2

/-- The JavaScript expression `x || 0` on a possibly undefined number. -/
def orZero : Option ℚ → ℚ
  | some x => if x = 0 then 0 else x
  | none => 0

/-- Message of the `TypeError` raised by `diskIO.rIO` when `diskIO` is `null`. -/
def nullDiskIOMessage : String :=
  "Cannot read properties of null"

/-- The statements of `getSystemInfo` that build `diskInfo.io`: both speeds
start at `0` and are overwritten when `previousDiskIO` is set. -/
def diskIOInfo ( previousDiskIO : Option DiskIO) ( diskIO : DiskIO) : DiskIOInfo :=
  let io : DiskIOInfo :=
    { read := diskIO.rIO, write := diskIO.wIO, readSpeed := 0, writeSpeed := 0 }
  match previousDiskIO with
  | some prev =>
      { io with
        readSpeed := (( diskIO.rIO : ℚ) - ( prev.rIO : ℚ)) / timeDiff
        writeSpeed := (( diskIO.wIO : ℚ) - ( prev.wIO : ℚ)) / timeDiff }
  | none => io

/-- Body of the callback of `networkStats.map((iface, index) => ...)`. -/
def networkEntry (previousNetworkStats : Option (List NetworkStat))
    (iface : NetworkStat) (index : Nat) : NetworkInfo :=
  let speeds : ℚ × ℚ :=
    match previousNetworkStats with
    | some prevList =>
        match prevList[index]? with
        | some prev =>
            (((iface.rx_bytes : ℚ) - (prev.rx_bytes : ℚ)) / timeDiff,
             ((iface.tx_bytes : ℚ) - (prev.tx_bytes : ℚ)) / timeDiff)
        | none => (0, 0)
    | none => (0, 0)
  { iface := iface.iface
    operstate := iface.operstate
    rxBytes := iface.rx_bytes
    txBytes := iface.tx_bytes
    rxSpeed := speeds.1
    txSpeed := speeds.2 }

/-- The call `networkStats.map((iface, index) => ...)`, with `index` the
position of the first element of the remaining list. -/
def networkInfoFrom (previousNetworkStats : Option (List NetworkStat)) :
    Nat → List NetworkStat → List NetworkInfo
  | _, [] => []
  | index, iface :: rest =>
      networkEntry previousNetworkStats iface index ::
        networkInfoFrom previousNetworkStats (index + 1) rest

/-- The call `gpuData.controllers.map(gpu => ...)`. -/
def gpuInfo (controllers : List GpuController) : List GpuInfo :=
  controllers.map fun gpu =>
    { model := gpu.model, utilizationGpu := orZero gpu.utilizationGpu }

/-- The function `getSystemInfo`. `provider` is the outcome of the awaited
`Promise.all` (a rejection carries its message), `now` the value of
`Date.now()` at the return. The function never throws: every failure of the
`try` block is turned into `{error, timestamp}`, and a failure occurs before
either module variable is assigned. -/
def getSystemInfo (g : Globals) (now : Nat) (provider : Except String RawSample) :
    Payload × Globals :=
  match provider with
  | .error message => (.failure message now, g)
  | .ok raw =>
      match raw.diskIO with
      | none => (.failure nullDiskIOMessage now, g)
      | some diskIO =>
          let io := diskIOInfo g.previousDiskIO diskIO
          let networkInfo := networkInfoFrom g.previousNetworkStats 0 raw.networkStats
          (.info
            { timestamp := now
              cpuUsage := raw.currentLoad
              memoryUsagePercent := ((raw.memUsed : ℚ) / (raw.memTotal : ℚ)) * 100
              diskIO := io
              network := networkInfo
              gpu := gpuInfo raw.controllers },
           { previousNetworkStats := some raw.networkStats
             previousDiskIO := some diskIO })

/-- What the server sends out: a Socket.IO event to one socket, or the JSON
body of a `/api/system-info` response. -/
inductive Output where
  | emitSystemData (socket : Nat) (data : Payload)
  | emitError (socket : Nat) (message : String)
  | json (data : Payload)
deriving DecidableEq, Repr

/-- The server: the two module variables, the interval timers currently
scheduled (handle and owning socket), the supply of fresh timer handles, and
for every socket the variable `monitoringInterval` of its connection closure
(`none` is `null`, the value it is created with). -/
structure Server where
  globals : Globals
  intervals : List (Nat × Nat)
  nextHandle : Nat
  monitoringInterval : Nat → Option Nat

/-- The server after start-up: no sample taken, no timer, no session started. -/
def Server.initial : Server :=
  { globals := Globals.initial
    intervals := []
    nextHandle := 0
    monitoringInterval := fun _ => none }

/-- The call `clearInterval(handle)`. -/
def clearInterval (intervals : List (Nat × Nat)) (handle : Nat) : List (Nat × Nat) :=
  intervals.filter fun t => t.1 != handle

/-- What happens on the server. A `tick` is one firing of the interval with
the given handle; `apiSystemInfo` is a `GET /api/system-info`. -/
inductive Event where
  | startMonitoring (socket : Nat)
  | stopMonitoring (socket : Nat)
  | disconnect (socket : Nat)
  | tick (handle : Nat) (now : Nat) (provider : Except String RawSample)
  | apiSystemInfo (now : Nat) (provider : Except String RawSample)

/-- Handler of `start-monitoring`: clear the existing interval if any, then
schedule a new one and store its handle. -/
def onStartMonitoring (srv : Server) (socket : Nat) : Server :=
  let cleared :=
    match srv.monitoringInterval socket with
    | some handle => clearInterval srv.intervals handle
    | none => srv.intervals
  { srv with
    intervals := cleared ++ [(srv.nextHandle, socket)]
    nextHandle := srv.nextHandle + 1
    monitoringInterval := Function.update srv.monitoringInterval socket (some srv.nextHandle) }

/-- Handler of `stop-monitoring`, and equally of `disconnect`: both have the
body `if (monitoringInterval) { clearInterval(...); monitoringInterval = null; }`. -/
def onStopMonitoring (srv : Server) (socket : Nat) : Server :=
  match srv.monitoringInterval socket with
  | some handle =>
      { srv with
        intervals := clearInterval srv.intervals handle
        monitoringInterval := Function.update srv.monitoringInterval socket none }
  | none => srv

/-- The interval callback of `start-monitoring`:
`try { emit('system-data', await getSystemInfo()) } catch (error) { emit('error', {message}) }`.
The `try` body is the `.ok` case; `getSystemInfo` always returns. -/
def tickCallback (g : Globals) (socket : Nat) (now : Nat)
    (provider : Except String RawSample) : Globals × List Output :=
  let attempt : Except String (Payload × Globals) := .ok (getSystemInfo g now provider)
  match attempt with
  | .ok (systemInfo, g') => (g', [.emitSystemData socket systemInfo])
  | .error message => (g, [.emitError socket message])

/-- The route `GET /api/system-info`. -/
def apiSystemInfo (g : Globals) (now : Nat) (provider : Except String RawSample) :
    Globals × List Output :=
  let attempt : Except String (Payload × Globals) := .ok (getSystemInfo g now provider)
  match attempt with
  | .ok (systemInfo, g') => (g', [.json systemInfo])
  | .error message => (g, [.json (.failure message now)])

/-- One event handled by the server. A timer that has been cleared no longer
fires: a `tick` for a handle that is not scheduled does nothing. -/
def step (srv : Server) : Event → Server × List Output
  | .startMonitoring socket => (onStartMonitoring srv socket, [])
  | .stopMonitoring socket => (onStopMonitoring srv socket, [])
  | .disconnect socket => (onStopMonitoring srv socket, [])
  | .tick handle now provider =>
      match srv.intervals.find? fun t => t.1 == handle with
      | some (_, socket) =>
          let r := tickCallback srv.globals socket now provider
          ({ srv with globals := r.1 }, r.2)
      | none => (srv, [])
  | .apiSystemInfo now provider =>
      let r := apiSystemInfo srv.globals now provider
      ({ srv with globals := r.1 }, r.2)

/-- A sequence of events handled in order, with everything sent out. -/
def run (srv : Server) : List Event → Server × List Output
  | [] => (srv, [])
  | e :: rest =>
      let r := step srv e
      let r' := run r.1 rest
      (r'.1, r.2 ++ r'.2)

/-- The interval timers currently scheduled for one socket. -/
def timersOf (srv : Server) (socket : Nat) : List (Nat × Nat) :=
  srv.intervals.filter fun t => t.2 == socket

/-- Read rate of a payload, when it is a snapshot. -/
def Payload.readSpeed : Payload → Option ℚ
  | .info s => some s.diskIO.readSpeed
  | .failure _ _ => none

/-- Write rate of a payload, when it is a snapshot. -/
def Payload.writeSpeed : Payload → Option ℚ
  | .info s => some s.diskIO.writeSpeed
  | .failure _ _ => none

/-- The network list of a payload (empty for a failure payload). -/
def Payload.network : Payload → List NetworkInfo
  | .info s => s.network
  | .failure _ _ => []

/-- Consistency of the timer bookkeeping: every scheduled handle has been
issued, a handle is scheduled for one socket only, and the timers scheduled for
a socket are exactly the one recorded in its `monitoringInterval`, if any. -/
def TimersOk (srv : Server) : Prop :=
  (∀ t ∈ srv.intervals, t.1 < srv.nextHandle) ∧
  (∀ t ∈ srv.intervals, ∀ u ∈ srv.intervals, t.1 = u.1 → t.2 = u.2) ∧
  (∀ socket : Nat, timersOf srv socket =
    match srv.monitoringInterval socket with
    | some handle => [(handle, socket)]
    | none => [])

/-- The payloads sent to one socket with `system-data`, in order. -/
def deliveredTo (socket : Nat) : List Output → List Payload
  | [] => []
  | .emitSystemData target data :: rest =>
      if target = socket then data :: deliveredTo socket rest else deliveredTo socket rest
  | _ :: rest => deliveredTo socket rest

/-! ## Client side: `public/app.js` -/

/-- The constant `MAX_MONITORING_SECONDS` (five minutes). -/
def MAX_MONITORING_SECONDS : Nat := 300

/-- The constant `MAX_DATA_POINTS`. -/
def MAX_DATA_POINTS : Nat := 600

/-- The object `dataHistory`; `networkRx` and `networkTx` are
`dataHistory.network.rx` and `dataHistory.network.tx`. -/
structure DataHistory where
  cpu : List ℚ
  memory : List ℚ
  networkRx : List ℚ
  networkTx : List ℚ
  disk : List ℚ
  gpu : List ℚ
  timestamps : List String
deriving DecidableEq, Repr

/-- All series empty, as in the declaration of `dataHistory`. -/
def DataHistory.empty : DataHistory :=
  { cpu := [], memory := [], networkRx := [], networkTx := [], disk := [], gpu := [],
    timestamps := [] }

/-- A snapshot as `handleSystemData` reads it: `data.cpu.usage`,
`data.memory.usagePercent`, and the lists `data.network` and `data.gpu`, either
of which may be missing. -/
structure SystemData where
  cpuUsage : ℚ
  memoryUsagePercent : ℚ
  network : Option (List NetworkInfo)
  gpu : Option (List GpuInfo)
deriving DecidableEq, Repr

/-- Argument of `handleSystemData`: nothing (`!data`), a failure payload
`{error, timestamp}` whose `error` field holds the message of the failure
(possibly the empty string, which is falsy), or a snapshot. -/
inductive Received where
  | absent
  | failed (error : String)
  | snapshot (data : SystemData)
deriving DecidableEq, Repr

/-- The page: the module variables of `app.js`, the interval timers scheduled
by `startTimer` and not yet cleared with the supply of fresh handles, the
events sent with `socket.emit`, whether the timer-complete dialog is shown, the
`disabled` flag of the three buttons, and the timer text and progress bar width
(in percent) last written by `updateTimerDisplay`. -/
structure Client where
  isMonitoring : Bool
  monitoringStartTime : Option Nat
  timerInterval : Option Nat
  elapsedSeconds : Nat
  dataHistory : DataHistory
  intervals : List Nat
  nextHandle : Nat
  emitted : List String
  timerCompleteModal : Bool
  startBtnDisabled : Bool
  stopBtnDisabled : Bool
  pdfBtnDisabled : Bool
  timerText : String
  progressBarWidth : ℚ
deriving DecidableEq, Repr

/-- The page after loading. What the page markup gives the buttons and the
timer display is not part of `app.js`: the start button is taken enabled, the
other two disabled, the timer at zero. -/
def Client.initial : Client :=
  { isMonitoring := false
    monitoringStartTime := none
    timerInterval := none
    elapsedSeconds := 0
    dataHistory := DataHistory.empty
    intervals := []
    nextHandle := 1
    emitted := []
    timerCompleteModal := false
    startBtnDisabled := false
    stopBtnDisabled := true
    pdfBtnDisabled := true
    timerText := "00:00 / 05:00"
    progressBarWidth := 0 }

/-- The function `startTimer`: `timerInterval = setInterval(..., 1000)`. -/
def startTimer (c : Client) : Client :=
  { c with
    timerInterval := some c.nextHandle
    intervals := c.intervals ++ [c.nextHandle]
    nextHandle := c.nextHandle + 1 }

/-- The function `startMonitoring`; `now` is the value of `Date.now()`. -/
def startMonitoring (c : Client) (now : Nat) : Client :=
  let c1 : Client :=
    { c with
      isMonitoring := true
      monitoringStartTime := some now
      elapsedSeconds := 0
      dataHistory := DataHistory.empty
      startBtnDisabled := true
      stopBtnDisabled := false
      pdfBtnDisabled := true }
  let c2 := startTimer c1
  { c2 with emitted := c2.emitted ++ ["start-monitoring"] }

/-- The values pushed to `network.rx` and `network.tx` for one snapshot: the
speeds, in KB/s, of the first interface that is up (of the first interface when
none is), and `0` for both when the list is missing or empty. -/
def networkPoint : Option (List NetworkInfo) → ℚ × ℚ
  | some (first :: rest) =>
      let primaryInterface :=
        ((first :: rest).find? fun iface => iface.operstate == "up").getD first
      (primaryInterface.rxSpeed / 1024, primaryInterface.txSpeed / 1024)
  | _ => (0, 0)

/-- The value pushed to `gpu` for one snapshot: `data.gpu[0].utilizationGpu || 0`,
and `0` when the list is missing or empty. -/
def gpuPoint : Option (List GpuInfo) → ℚ
  | some (first :: _) => orZero (some first.utilizationGpu)
  | _ => 0

/-- The six `push` calls of `handleSystemData`. -/
def pushPoint (h : DataHistory) (timestamp : String) (data : SystemData) : DataHistory :=
  { h with
    timestamps := h.timestamps ++ [timestamp]
    cpu := h.cpu ++ [data.cpuUsage]
    memory := h.memory ++ [data.memoryUsagePercent]
    networkRx := h.networkRx ++ [(networkPoint data.network).1]
    networkTx := h.networkTx ++ [(networkPoint data.network).2]
    gpu := h.gpu ++ [gpuPoint data.gpu] }

/-- The block `if (dataHistory.timestamps.length > MAX_DATA_POINTS) { ... shift() ... }`. -/
def trimHistory (h : DataHistory) : DataHistory :=
  if h.timestamps.length > MAX_DATA_POINTS then
    { h with
      timestamps := h.timestamps.tail
      cpu := h.cpu.tail
      memory := h.memory.tail
      networkRx := h.networkRx.tail
      networkTx := h.networkTx.tail
      gpu := h.gpu.tail }
  else h

/-- The part of `handleSystemData` that updates `dataHistory`; `timestamp` is
the value of `new Date().toLocaleTimeString()`. The result is the state the
call leaves behind. The guard `!isMonitoring || !data || data.error` returns
for a failure payload only when its message is truthy: with the empty message
and the page monitoring, `timestamps.push(timestamp)` runs and the next
statement, which reads `data.cpu.usage`, throws, the payload having no `cpu`
record. For a snapshot, the chart and page updates that follow the history
update read the history without changing it. -/
def handleSystemData (c : Client) (timestamp : String) : Received → Client
  | .absent => c
  | .failed error =>
      if c.isMonitoring = true ∧ error = "" then
        { c with
          dataHistory :=
            { c.dataHistory with timestamps := c.dataHistory.timestamps ++ [timestamp] } }
      else c
  | .snapshot data =>
      if c.isMonitoring then
        { c with dataHistory := trimHistory (pushPoint c.dataHistory timestamp data) }
      else c

/-- Whether the history part of `handleSystemData` ends in a `TypeError`
instead of returning: so it does for a failure payload with the empty message
while the page is monitoring. -/
def handleSystemDataThrows (c : Client) : Received → Bool
  | .failed error => c.isMonitoring && error == ""
  | _ => false

/-- What `handleSystemData` is called with when the server sends the given
payload with `system-data`. -/
def Received.ofPayload : Payload → Received
  | .failure error _ => .failed error
  | .info systemInfo =>
      .snapshot
        { cpuUsage := systemInfo.cpuUsage
          memoryUsagePercent := systemInfo.memoryUsagePercent
          network := some systemInfo.network
          gpu := some systemInfo.gpu }

/-- A sequence of `system-data` events handled in order, each with the clock
reading taken inside the handler. -/
def handleAll (c : Client) : List (String × Received) → Client
  | [] => c
  | call :: rest => handleAll (handleSystemData c call.1 call.2) rest

/-- The function `stopTimer`. -/
def stopTimer (c : Client) : Client :=
  match c.timerInterval with
  | some handle =>
      { c with
        intervals := c.intervals.filter fun h => h != handle
        timerInterval := none }
  | none => c

/-- The function `stopMonitoring`. The record it writes to local storage is
not part of the state. -/
def stopMonitoring (c : Client) : Client :=
  let c1 : Client :=
    { c with
      isMonitoring := false
      startBtnDisabled := false
      stopBtnDisabled := true
      pdfBtnDisabled := false }
  let c2 := stopTimer c1
  { c2 with emitted := c2.emitted ++ ["stop-monitoring"] }

/-- The expression `String(n).padStart(2, '0')`. -/
def padStart2 (n : Nat) : String :=
  if n < 10 then "0" ++ toString n else toString n

/-- The function `updateTimerDisplay`. -/
def updateTimerDisplay (c : Client) : Client :=
  let minutes := c.elapsedSeconds / 60
  let seconds := c.elapsedSeconds % 60
  let totalMinutes := MAX_MONITORING_SECONDS / 60
  let progress : ℚ := ((c.elapsedSeconds : ℚ) / (MAX_MONITORING_SECONDS : ℚ)) * 100
  { c with
    timerText :=
      padStart2 minutes ++ ":" ++ padStart2 seconds ++ " / " ++ padStart2 totalMinutes ++ ":00"
    progressBarWidth := progress }

/-- The function `showTimerCompleteModal`. -/
def showTimerCompleteModal (c : Client) : Client :=
  { c with timerCompleteModal := true }

/-- The callback that `startTimer` passes to `setInterval`, run once. -/
def timerTick (c : Client) : Client :=
  let c1 := updateTimerDisplay { c with elapsedSeconds := c.elapsedSeconds + 1 }
  if c1.elapsedSeconds ≥ MAX_MONITORING_SECONDS then
    showTimerCompleteModal (stopMonitoring c1)
  else c1

/-- What happens in the page: a click on the start or stop button (a disabled
button delivers no click), the socket disconnecting, one firing of the interval
with the given handle, a `system-data` event, and the timer-complete dialog
being closed. -/
inductive PageEvent where
  | clickStart (now : Nat)
  | clickStop
  | socketDisconnect
  | timerFires (handle : Nat)
  | systemData (timestamp : String) (data : Received)
  | closeTimerModal
deriving DecidableEq, Repr

/-- One page event handled. A cleared interval no longer fires. -/
def pageStep (c : Client) : PageEvent → Client
  | .clickStart now => if c.startBtnDisabled then c else startMonitoring c now
  | .clickStop => if c.stopBtnDisabled then c else stopMonitoring c
  | .socketDisconnect => if c.isMonitoring then stopMonitoring c else c
  | .timerFires handle => if c.intervals.contains handle then timerTick c else c
  | .systemData timestamp data => handleSystemData c timestamp data
  | .closeTimerModal => { c with timerCompleteModal := false }

/-- A sequence of page events handled in order. -/
def pageRun (c : Client) : List PageEvent → Client
  | [] => c
  | e :: rest => pageRun (pageStep c e) rest

/-- Consistency of the page timer: `elapsedSeconds` is at most
`MAX_MONITORING_SECONDS`, the progress bar is between 0 and 100 percent, and
either no interval is scheduled, or exactly the one recorded in `timerInterval`
is, the page is monitoring, the start button is disabled and `elapsedSeconds`
is below `MAX_MONITORING_SECONDS`. -/
def PageOk (c : Client) : Prop :=
  c.elapsedSeconds ≤ MAX_MONITORING_SECONDS ∧
  0 ≤ c.progressBarWidth ∧ c.progressBarWidth ≤ 100 ∧
  match c.timerInterval with
  | none => c.intervals = []
  | some handle =>
      c.intervals = [handle] ∧ c.isMonitoring = true ∧ c.startBtnDisabled = true ∧
        c.elapsedSeconds < MAX_MONITORING_SECONDS

/-- The call `xs.slice(start)` of a JavaScript array: a negative `start` counts
from the end, and the result is a new array. -/
def slice {α : Type} (xs : List α) (start : Int) : List α :=
  let len : Int := xs.length
  let k : Int := if start < 0 then max (len + start) 0 else min start len
  xs.drop k.toNat

/-- Labels and data of a line chart with one dataset. -/
structure LineChart where
  labels : List String
  data : List ℚ
deriving DecidableEq, Repr

/-- Labels and the two datasets of the network chart. -/
structure NetworkChart where
  labels : List String
  rx : List ℚ
  tx : List ℚ
deriving DecidableEq, Repr

/-- The line charts of `charts` that show the history: `cpuLine`, `memLine`
and `network`. -/
structure Charts where
  cpuLine : LineChart
  memLine : LineChart
  network : NetworkChart
deriving DecidableEq, Repr

/-- The line-chart statements of `updateCPU`, passing `dataHistory` through. -/
def updateCPU (h : DataHistory) (charts : Charts) : DataHistory × Charts :=
  (h, { charts with
        cpuLine := { labels := slice h.timestamps (-60), data := slice h.cpu (-60) } })

/-- The line-chart statements of `updateMemory`, passing `dataHistory` through. -/
def updateMemory (h : DataHistory) (charts : Charts) : DataHistory × Charts :=
  (h, { charts with
        memLine := { labels := slice h.timestamps (-60), data := slice h.memory (-60) } })

/-- The chart statements of `updateNetwork`, which returns at once when
`networkData` is missing or empty, passing `dataHistory` through. -/
def updateNetwork (networkData : Option (List NetworkInfo)) (h : DataHistory)
    (charts : Charts) : DataHistory × Charts :=
  match networkData with
  | some (_ :: _) =>
      (h, { charts with
            network :=
              { labels := slice h.timestamps (-60)
                rx := slice h.networkRx (-60)
                tx := slice h.networkTx (-60) } })
  | _ => (h, charts)

/-- The last `n` elements of a list (the whole list when it has fewer), in order. -/
def mostRecent {α : Type} (n : Nat) (xs : List α) : List α :=
  xs.drop (xs.length - n)

/-- The six plotted series of a history hold the points derived from the most
recent `MAX_DATA_POINTS` of the given snapshots, each paired with the clock
reading of its arrival. -/
def HoldsRecent (h : DataHistory) (inputs : List (String × SystemData)) : Prop :=
  h.timestamps = mostRecent MAX_DATA_POINTS (inputs.map fun p => p.1) ∧
  h.cpu = mostRecent MAX_DATA_POINTS (inputs.map fun p => p.2.cpuUsage) ∧
  h.memory = mostRecent MAX_DATA_POINTS (inputs.map fun p => p.2.memoryUsagePercent) ∧
  h.networkRx = mostRecent MAX_DATA_POINTS (inputs.map fun p => (networkPoint p.2.network).1) ∧
  h.networkTx = mostRecent MAX_DATA_POINTS (inputs.map fun p => (networkPoint p.2.network).2) ∧
  h.gpu = mostRecent MAX_DATA_POINTS (inputs.map fun p => gpuPoint p.2.gpu)

/-- The six plotted series have one common length, at most `MAX_DATA_POINTS`. -/
def Aligned (h : DataHistory) : Prop :=
  h.cpu.length = h.timestamps.length ∧
  h.memory.length = h.timestamps.length ∧
  h.networkRx.length = h.timestamps.length ∧
  h.networkTx.length = h.timestamps.length ∧
  h.gpu.length = h.timestamps.length ∧
  h.timestamps.length ≤ MAX_DATA_POINTS

/-! ## Sample data used in the concrete evaluations -/

/-- A provider result with the given interface counters and disk counters, an
idle processor and no graphics controller. -/
def sampleOf (networkStats : List NetworkStat) ( rIO wIO : Nat) : RawSample :=
  { currentLoad := 0
    memUsed := 1
    memTotal := 2
    networkStats := networkStats
    diskIO := some { rIO := rIO, wIO := wIO }
    controllers := [] }

/-- An interface that is up, with the given name and cumulative byte counters. -/
def ifaceOf (name : String) (rx tx : Nat) : NetworkStat :=
  { iface := name, operstate := "up", rx_bytes := rx, tx_bytes := tx }
/-- A snapshot with 10 % processor load and 20 % memory use, and the given
network and graphics lists. -/
def snapshotOf (network : Option (List NetworkInfo)) (gpu : Option (List GpuInfo)) :
    SystemData :=
  { cpuUsage := 10, memoryUsagePercent := 20, network := network, gpu := gpu }

/-! ## Properties of the rate derivation (`getSystemInfo`) -/

theorem networkInfoFrom_getElem? (prev : Option (List NetworkStat)) (l : List NetworkStat) :
    ∀ (k i : Nat), (networkInfoFrom prev k l)[i]? =
      (l[i]?).map fun s => networkEntry prev s (k + i) := by
  induction l with
  | nil => intro k i; simp [networkInfoFrom]
  | cons a rest ih =>
      intro k i
      cases i with
      | zero => simp [networkInfoFrom]
      | succ j =>
          simp only [networkInfoFrom, List.getElem?_cons_succ, ih]
          have : k + 1 + j = k + (j + 1) := by omega
          rw [this]

theorem networkInfoFrom_length (prev : Option (List NetworkStat)) (l : List NetworkStat) :
    ∀ k : Nat, (networkInfoFrom prev k l).length = l.length := by
  induction l with
  | nil => intro k; simp [networkInfoFrom]
  | cons a rest ih => intro k; simp [networkInfoFrom, ih]

theorem getSystemInfo_ok (g : Globals) (now : Nat) (raw : RawSample) (d : DiskIO)
    (h : raw.diskIO = some d) :
    getSystemInfo g now (.ok raw) =
      (.info
        { timestamp := now
          cpuUsage := raw.currentLoad
          memoryUsagePercent := ((raw.memUsed : ℚ) / (raw.memTotal : ℚ)) * 100
          diskIO := diskIOInfo g.previousDiskIO d
          network := networkInfoFrom g.previousNetworkStats 0 raw.networkStats
          gpu := gpuInfo raw.controllers },
       { previousNetworkStats := some raw.networkStats
         previousDiskIO := some d }) := by
  simp [getSystemInfo, h]

/-- The entry computed for position `i` when the previous sample has an entry
at the same position. -/
theorem networkEntry_of_prev (l : List NetworkStat) (n p : NetworkStat) (i : Nat)
    (hp : l[i]? = some p) :
    networkEntry (some l) n i =
      { iface := n.iface
        operstate := n.operstate
        rxBytes := n.rx_bytes
        txBytes := n.tx_bytes
        rxSpeed := ((n.rx_bytes : ℚ) - (p.rx_bytes : ℚ)) / timeDiff
        txSpeed := ((n.tx_bytes : ℚ) - (p.tx_bytes : ℚ)) / timeDiff } := by
  simp [networkEntry, hp]

theorem half_div_nonneg (a b : Nat) (h : a ≤ b) : (0 : ℚ) ≤ ((b : ℚ) - (a : ℚ)) / (1 / 2) := by
  have : (a : ℚ) ≤ (b : ℚ) := by exact_mod_cast h
  apply div_nonneg <;> linarith

theorem half_div_neg (a b : Nat) (h : b < a) : ((b : ℚ) - (a : ℚ)) / (1 / 2) < 0 := by
  have : (b : ℚ) < (a : ℚ) := by exact_mod_cast h
  apply div_neg_of_neg_of_pos <;> linarith

/-- C1 (as stated, refuted): two successful samples taken one second apart with
the read counter going from 1000 to 1500 give a read rate of 1000, not
(1500 - 1000) / 1 s = 500. -/
theorem rate_over_elapsed_time_counterexample :
    (0 : Nat) < 1000 ∧ (1000 : Nat) ≤ 1500 ∧
    (getSystemInfo (getSystemInfo Globals.initial 0 (.ok (sampleOf [] 1000 0))).2
        1000 (.ok (sampleOf [] 1500 0))).1.readSpeed = some 1000 ∧
    (getSystemInfo (getSystemInfo Globals.initial 0 (.ok (sampleOf [] 1000 0))).2
        1000 (.ok (sampleOf [] 1500 0))).1.readSpeed ≠
      some (((1500 : ℚ) - 1000) / (((1000 : ℚ) - 0) / 1000)) := by
  refine ⟨by decide, by decide, ?_, ?_⟩
  · simp [getSystemInfo, sampleOf, diskIOInfo, timeDiff, Payload.readSpeed]
    norm_num
  · simp [getSystemInfo, sampleOf, diskIOInfo, timeDiff, Payload.readSpeed]
    norm_num

/-- C1 (amended): for two consecutive successful samples, whatever the times
`now1` and `now2` at which they are taken, every derived rate of the second
snapshot equals (current value - previous value) divided by the fixed interval
0.5 s, the previous value of an interface being that of the entry at the same
list position; the rate is not negative when the counter does not decrease. -/
theorem rate_is_delta_over_half_second (g : Globals) (now1 now2 : Nat)
    (raw1 raw2 : RawSample) (d1 d2 : DiskIO)
    (h1 : raw1.diskIO = some d1) (h2 : raw2.diskIO = some d2) :
    ∃ s : SystemInfo,
      (getSystemInfo (getSystemInfo g now1 (.ok raw1)).2 now2 (.ok raw2)).1 = .info s ∧
      s.diskIO.readSpeed = (( d2.rIO : ℚ) - ( d1.rIO : ℚ)) / (1 / 2) ∧
      s.diskIO.writeSpeed = (( d2.wIO : ℚ) - ( d1.wIO : ℚ)) / (1 / 2) ∧
      ( d1.rIO ≤ d2.rIO → 0 ≤ s.diskIO.readSpeed) ∧
      ( d1.wIO ≤ d2.wIO → 0 ≤ s.diskIO.writeSpeed) ∧
      ∀ (i : Nat) (n1 n2 : NetworkStat),
        raw1.networkStats[i]? = some n1 → raw2.networkStats[i]? = some n2 →
        ∃ e : NetworkInfo, s.network[i]? = some e ∧ e.iface = n2.iface ∧
          e.rxSpeed = ((n2.rx_bytes : ℚ) - (n1.rx_bytes : ℚ)) / (1 / 2) ∧
          e.txSpeed = ((n2.tx_bytes : ℚ) - (n1.tx_bytes : ℚ)) / (1 / 2) ∧
          (n1.rx_bytes ≤ n2.rx_bytes → 0 ≤ e.rxSpeed) ∧
          (n1.tx_bytes ≤ n2.tx_bytes → 0 ≤ e.txSpeed) := by
  rw [getSystemInfo_ok g now1 raw1 d1 h1, getSystemInfo_ok _ now2 raw2 d2 h2]
  refine ⟨_, rfl, ?_, ?_, ?_, ?_, ?_⟩
  · simp [diskIOInfo, timeDiff]
  · simp [diskIOInfo, timeDiff]
  · intro h
    have := half_div_nonneg _ _ h
    simpa [diskIOInfo, timeDiff] using this
  · intro h
    have := half_div_nonneg _ _ h
    simpa [diskIOInfo, timeDiff] using this
  · intro i n1 n2 hn1 hn2
    refine ⟨networkEntry (some raw1.networkStats) n2 i, ?_, ?_, ?_, ?_, ?_, ?_⟩
    · simp [networkInfoFrom_getElem?, hn2]
    · simp [networkEntry]
    · rw [networkEntry_of_prev _ _ _ _ hn1]; simp [timeDiff]
    · rw [networkEntry_of_prev _ _ _ _ hn1]; simp [timeDiff]
    · intro h
      rw [networkEntry_of_prev _ _ _ _ hn1]
      have := half_div_nonneg _ _ h
      simpa [timeDiff] using this
    · intro h
      rw [networkEntry_of_prev _ _ _ _ hn1]
      have := half_div_nonneg _ _ h
      simpa [timeDiff] using this

/-- Witness for C1 (amended): samples one second apart, disk counters 1000 then
1500 and 10 then 30, one interface. -/
theorem rate_is_delta_over_half_second_witness :
    ∃ s : SystemInfo,
      (getSystemInfo
          (getSystemInfo Globals.initial 0 (.ok (sampleOf [ifaceOf "eth0" 100 200] 1000 10))).2
          1000 (.ok (sampleOf [ifaceOf "eth0" 150 260] 1500 30))).1 = .info s ∧
      s.diskIO.readSpeed = (((1500 : Nat) : ℚ) - ((1000 : Nat) : ℚ)) / (1 / 2) ∧
      s.diskIO.writeSpeed = (((30 : Nat) : ℚ) - ((10 : Nat) : ℚ)) / (1 / 2) :=
  (rate_is_delta_over_half_second Globals.initial 0 1000
      (sampleOf [ifaceOf "eth0" 100 200] 1000 10) (sampleOf [ifaceOf "eth0" 150 260] 1500 30)
      { rIO := 1000, wIO := 10 } { rIO := 1500, wIO := 30 } rfl rfl).imp
    fun _ h => ⟨h.1, h.2.1, h.2.2.1⟩

/-- C2 (as stated, refuted): disk read counters 1000, 1500, 1200 sampled 0.5 s
apart give read rates 0, 1000 and -600; the third is not 0. -/
theorem counter_reset_rate_counterexample :
    (getSystemInfo Globals.initial 0 (.ok (sampleOf [] 1000 0))).1.readSpeed = some 0 ∧
    (getSystemInfo (getSystemInfo Globals.initial 0 (.ok (sampleOf [] 1000 0))).2
        500 (.ok (sampleOf [] 1500 0))).1.readSpeed = some 1000 ∧
    (getSystemInfo
        (getSystemInfo (getSystemInfo Globals.initial 0 (.ok (sampleOf [] 1000 0))).2
          500 (.ok (sampleOf [] 1500 0))).2
        1000 (.ok (sampleOf [] 1200 0))).1.readSpeed = some (-600) ∧
    (getSystemInfo
        (getSystemInfo (getSystemInfo Globals.initial 0 (.ok (sampleOf [] 1000 0))).2
          500 (.ok (sampleOf [] 1500 0))).2
        1000 (.ok (sampleOf [] 1200 0))).1.readSpeed ≠ some 0 := by
  refine ⟨?_, ?_, ?_, ?_⟩
  · simp [getSystemInfo, sampleOf, diskIOInfo, Globals.initial, Payload.readSpeed]
  · simp [getSystemInfo, sampleOf, diskIOInfo, timeDiff, Payload.readSpeed]
    norm_num
  · simp [getSystemInfo, sampleOf, diskIOInfo, timeDiff, Payload.readSpeed]
    norm_num
  · simp [getSystemInfo, sampleOf, diskIOInfo, timeDiff, Payload.readSpeed]
    norm_num

/-- C2 (amended): when a cumulative counter is lower than in the stored previous
sample, `getSystemInfo` returns a snapshot (it does not fail) whose rate for
that stream is (current - previous) / 0.5, a negative number, and the current
counters become the stored baseline. -/
theorem counter_decrease_gives_negative_rate (g : Globals) (now : Nat) (raw : RawSample)
    (d prev : DiskIO) (l : List NetworkStat)
    (hprev : g.previousDiskIO = some prev) (hl : g.previousNetworkStats = some l)
    (h : raw.diskIO = some d) :
    ∃ s : SystemInfo,
      getSystemInfo g now (.ok raw) =
        (.info s, { previousNetworkStats := some raw.networkStats, previousDiskIO := some d }) ∧
      ( d.rIO < prev.rIO →
        s.diskIO.readSpeed = (( d.rIO : ℚ) - ( prev.rIO : ℚ)) / (1 / 2) ∧
          s.diskIO.readSpeed < 0) ∧
      ( d.wIO < prev.wIO →
        s.diskIO.writeSpeed = (( d.wIO : ℚ) - ( prev.wIO : ℚ)) / (1 / 2) ∧
          s.diskIO.writeSpeed < 0) ∧
      ∀ (i : Nat) (p n : NetworkStat), l[i]? = some p → raw.networkStats[i]? = some n →
        ∃ e : NetworkInfo, s.network[i]? = some e ∧
          (n.rx_bytes < p.rx_bytes →
            e.rxSpeed = ((n.rx_bytes : ℚ) - (p.rx_bytes : ℚ)) / (1 / 2) ∧ e.rxSpeed < 0) ∧
          (n.tx_bytes < p.tx_bytes →
            e.txSpeed = ((n.tx_bytes : ℚ) - (p.tx_bytes : ℚ)) / (1 / 2) ∧ e.txSpeed < 0) := by
  rw [getSystemInfo_ok g now raw d h]
  refine ⟨_, rfl, ?_, ?_, ?_⟩
  · intro hlt
    have := half_div_neg _ _ hlt
    simp only [hprev, diskIOInfo, timeDiff]
    exact ⟨trivial, this⟩
  · intro hlt
    have := half_div_neg _ _ hlt
    simp only [hprev, diskIOInfo, timeDiff]
    exact ⟨trivial, this⟩
  · intro i p n hp hn
    refine ⟨networkEntry (some l) n i, ?_, ?_, ?_⟩
    · simp [networkInfoFrom_getElem?, hn, hl]
    · intro hlt
      have := half_div_neg _ _ hlt
      rw [networkEntry_of_prev _ _ _ _ hp]
      simp only [timeDiff]
      exact ⟨trivial, this⟩
    · intro hlt
      have := half_div_neg _ _ hlt
      rw [networkEntry_of_prev _ _ _ _ hp]
      simp only [timeDiff]
      exact ⟨trivial, this⟩

/-- Witness for C2 (amended): stored counters 1500 (disk read) and 500 (bytes
received on the first interface), current counters 1200 and 200. -/
theorem counter_decrease_gives_negative_rate_witness :
    ∃ s : SystemInfo,
      getSystemInfo
          { previousNetworkStats := some [ifaceOf "eth0" 500 500],
            previousDiskIO := some { rIO := 1500, wIO := 0 } }
          1000 (.ok (sampleOf [ifaceOf "eth0" 200 500] 1200 0)) =
        (.info s,
          { previousNetworkStats := some [ifaceOf "eth0" 200 500],
            previousDiskIO := some { rIO := 1200, wIO := 0 } }) ∧
      s.diskIO.readSpeed < 0 ∧
      ∃ e : NetworkInfo, s.network[0]? = some e ∧ e.rxSpeed < 0 :=
  (counter_decrease_gives_negative_rate
      { previousNetworkStats := some [ifaceOf "eth0" 500 500],
        previousDiskIO := some { rIO := 1500, wIO := 0 } }
      1000 (sampleOf [ifaceOf "eth0" 200 500] 1200 0)
      { rIO := 1200, wIO := 0 } { rIO := 1500, wIO := 0 } [ifaceOf "eth0" 500 500]
      rfl rfl rfl).imp
    fun _ h =>
      ⟨h.1, (h.2.1 (by decide)).2,
        (h.2.2.2 0 (ifaceOf "eth0" 500 500) (ifaceOf "eth0" 200 500) rfl rfl).imp
          fun _ he => ⟨he.1, (he.2.1 (by decide)).2⟩⟩

/-- C7 (as stated, refuted): two interfaces whose counters do not move but whose
order in the list is swapped between two samples get the rates 8000 and -8000
bytes per second, each being measured against the other one's counters; derived
from its own previous counters, the rate of `wlan0` would be 0. -/
theorem rate_keyed_by_name_counterexample :
    ((getSystemInfo
        (getSystemInfo Globals.initial 0
          (.ok (sampleOf [ifaceOf "eth0" 1000 0, ifaceOf "wlan0" 5000 0] 0 0))).2
        500 (.ok (sampleOf [ifaceOf "wlan0" 5000 0, ifaceOf "eth0" 1000 0] 0 0))).1.network.map
      fun e => (e.iface, e.rxSpeed)) = [("wlan0", 8000), ("eth0", -8000)] ∧
    (8000 : ℚ) ≠ ((5000 : ℚ) - 5000) / (1 / 2) := by
  refine ⟨?_, by norm_num⟩
  simp [getSystemInfo, sampleOf, ifaceOf, networkInfoFrom, networkEntry, timeDiff,
    Payload.network]
  norm_num

/-- C7 (amended): network rate state is keyed by list position. The entry at
position `i` of a snapshot carries the name of the current sample's interface at
position `i`, and its rates are derived from the counters stored at position
`i` of the previous sample, whichever interface that was; when the previous
sample has no entry at position `i` both rates are 0. -/
theorem network_rate_keyed_by_position (g : Globals) (now : Nat) (raw : RawSample)
    (d : DiskIO) (l : List NetworkStat) (i : Nat) (n : NetworkStat)
    (h : raw.diskIO = some d) (hl : g.previousNetworkStats = some l)
    (hn : raw.networkStats[i]? = some n) :
    ∃ e : NetworkInfo, (getSystemInfo g now (.ok raw)).1.network[i]? = some e ∧
      e.iface = n.iface ∧
      (∀ p : NetworkStat, l[i]? = some p →
        e.rxSpeed = ((n.rx_bytes : ℚ) - (p.rx_bytes : ℚ)) / (1 / 2) ∧
        e.txSpeed = ((n.tx_bytes : ℚ) - (p.tx_bytes : ℚ)) / (1 / 2)) ∧
      (l[i]? = none → e.rxSpeed = 0 ∧ e.txSpeed = 0) := by
  rw [getSystemInfo_ok g now raw d h]
  refine ⟨networkEntry (some l) n i, ?_, ?_, ?_, ?_⟩
  · simp [Payload.network, networkInfoFrom_getElem?, hn, hl]
  · simp [networkEntry]
  · intro p hp
    rw [networkEntry_of_prev _ _ _ _ hp]
    simp [timeDiff]
  · intro hnone
    simp [networkEntry, hnone]

/-- Witness for C7 (amended): the interface `wlan0`, now first in the list, is
measured against the counters of `eth0`, which was first in the previous
sample. -/
theorem network_rate_keyed_by_position_witness :
    ∃ e : NetworkInfo,
      (getSystemInfo
          { previousNetworkStats := some [ifaceOf "eth0" 1000 0, ifaceOf "wlan0" 5000 0],
            previousDiskIO := none }
          500 (.ok (sampleOf [ifaceOf "wlan0" 5000 0, ifaceOf "eth0" 1000 0] 0 0))).1.network[0]?
        = some e ∧
      e.iface = "wlan0" ∧
      e.rxSpeed = (((ifaceOf "wlan0" 5000 0).rx_bytes : ℚ) -
        ((ifaceOf "eth0" 1000 0).rx_bytes : ℚ)) / (1 / 2) :=
  (network_rate_keyed_by_position
      { previousNetworkStats := some [ifaceOf "eth0" 1000 0, ifaceOf "wlan0" 5000 0],
        previousDiskIO := none }
      500 (sampleOf [ifaceOf "wlan0" 5000 0, ifaceOf "eth0" 1000 0] 0 0)
      { rIO := 0, wIO := 0 } [ifaceOf "eth0" 1000 0, ifaceOf "wlan0" 5000 0] 0
      (ifaceOf "wlan0" 5000 0) rfl rfl rfl).imp
    fun _ h => ⟨h.1, h.2.1, (h.2.2.1 (ifaceOf "eth0" 1000 0) rfl).1⟩

/-- C8: on a successful sample `getSystemInfo` returns rate 0 for every stream
that has no previous observation (the disk when `previousDiskIO` is not set, an
interface when `previousNetworkStats` is not set or has no entry at its
position), and it stores the current counters, against which the rates of the
next successful sample are measured. -/
theorem first_sample_rate_zero (g : Globals) (now : Nat) (raw : RawSample) (d : DiskIO)
    (h : raw.diskIO = some d) :
    ∃ s : SystemInfo,
      getSystemInfo g now (.ok raw) =
        (.info s, { previousNetworkStats := some raw.networkStats, previousDiskIO := some d }) ∧
      (g.previousDiskIO = none → s.diskIO.readSpeed = 0 ∧ s.diskIO.writeSpeed = 0) ∧
      (∀ (i : Nat) (e : NetworkInfo), s.network[i]? = some e →
        (g.previousNetworkStats = none ∨
          ∃ l, g.previousNetworkStats = some l ∧ l[i]? = none) →
        e.rxSpeed = 0 ∧ e.txSpeed = 0) ∧
      ∀ (now2 : Nat) (raw2 : RawSample) (d2 : DiskIO), raw2.diskIO = some d2 →
        ∃ s2 : SystemInfo,
          (getSystemInfo (getSystemInfo g now (.ok raw)).2 now2 (.ok raw2)).1 = .info s2 ∧
          s2.diskIO.readSpeed = (( d2.rIO : ℚ) - ( d.rIO : ℚ)) / (1 / 2) ∧
          s2.diskIO.writeSpeed = (( d2.wIO : ℚ) - ( d.wIO : ℚ)) / (1 / 2) ∧
          ∀ (i : Nat) (n n2 : NetworkStat),
            raw.networkStats[i]? = some n → raw2.networkStats[i]? = some n2 →
            ∃ e : NetworkInfo, s2.network[i]? = some e ∧
              e.rxSpeed = ((n2.rx_bytes : ℚ) - (n.rx_bytes : ℚ)) / (1 / 2) ∧
              e.txSpeed = ((n2.tx_bytes : ℚ) - (n.tx_bytes : ℚ)) / (1 / 2) := by
  rw [getSystemInfo_ok g now raw d h]
  refine ⟨_, rfl, ?_, ?_, ?_⟩
  · intro hnone
    simp [diskIOInfo, hnone]
  · intro i e he hcase
    simp only [networkInfoFrom_getElem?, Nat.zero_add] at he
    cases hraw : raw.networkStats[i]? with
    | none => simp [hraw] at he
    | some n =>
        simp only [hraw, Option.map_some', Option.some.injEq] at he
        subst he
        rcases hcase with hnone | ⟨l, hl, hi⟩
        · simp [networkEntry, hnone]
        · simp [networkEntry, hl, hi]
  · intro now2 raw2 d2 h2
    rw [getSystemInfo_ok _ now2 raw2 d2 h2]
    refine ⟨_, rfl, ?_, ?_, ?_⟩
    · simp [diskIOInfo, timeDiff]
    · simp [diskIOInfo, timeDiff]
    · intro i n n2 hn hn2
      refine ⟨networkEntry (some raw.networkStats) n2 i, ?_, ?_, ?_⟩
      · simp [networkInfoFrom_getElem?, hn2]
      · rw [networkEntry_of_prev _ _ _ _ hn]; simp [timeDiff]
      · rw [networkEntry_of_prev _ _ _ _ hn]; simp [timeDiff]

/-- Witness for C8: the first sample after server start-up. -/
theorem first_sample_rate_zero_witness :
    ∃ s : SystemInfo,
      getSystemInfo Globals.initial 0 (.ok (sampleOf [ifaceOf "eth0" 100 200] 1000 10)) =
        (.info s,
          { previousNetworkStats := some [ifaceOf "eth0" 100 200],
            previousDiskIO := some { rIO := 1000, wIO := 10 } }) ∧
      s.diskIO.readSpeed = 0 ∧ s.diskIO.writeSpeed = 0 :=
  (first_sample_rate_zero Globals.initial 0 (sampleOf [ifaceOf "eth0" 100 200] 1000 10)
      { rIO := 1000, wIO := 10 } rfl).imp
    fun _ h => ⟨h.1, (h.2.1 rfl).1, (h.2.1 rfl).2⟩

/-! ## Properties of the rolling history (`handleSystemData`) -/

theorem tail_drop_snoc {β : Type} (l : List β) (y : β) (k : Nat) (hk : k < l.length) :
    (l.drop k ++ [y]).tail = (l ++ [y]).drop (k + 1) := by
  rw [List.drop_append_of_le_length (by omega)]
  have hne : l.drop k ≠ [] := by
    intro h
    have := congrArg List.length h
    simp at this
    omega
  rw [List.tail_append_of_ne_nil hne]
  simp [List.tail_drop]

theorem mostRecent_snoc {β : Type} (n : Nat) (hn : 0 < n) (l : List β) (y : β) :
    mostRecent n (l ++ [y]) =
      if n < (mostRecent n l ++ [y]).length then (mostRecent n l ++ [y]).tail
      else mostRecent n l ++ [y] := by
  unfold mostRecent
  by_cases h : l.length < n
  · have h0 : l.length - n = 0 := by omega
    have h1 : (l ++ [y]).length - n = 0 := by simp; omega
    rw [h0, h1]
    simp only [List.drop_zero, List.length_append, List.length_singleton]
    rw [if_neg (by omega)]
  · have hlen : ((List.drop (l.length - n) l) ++ [y]).length = n + 1 := by
      simp; omega
    rw [if_pos (by omega)]
    rw [tail_drop_snoc l y _ (by omega)]
    congr 1
    simp
    omega

theorem mostRecent_length {β : Type} (n : Nat) (l : List β) :
    (mostRecent n l).length = min l.length n := by
  unfold mostRecent
  simp
  omega

theorem holdsRecent_empty : HoldsRecent DataHistory.empty [] := by
  simp [HoldsRecent, DataHistory.empty, mostRecent]

theorem holdsRecent_step (h : DataHistory) (inputs : List (String × SystemData))
    (timestamp : String) (data : SystemData) (H : HoldsRecent h inputs) :
    HoldsRecent (trimHistory (pushPoint h timestamp data)) (inputs ++ [(timestamp, data)]) := by
  obtain ⟨h1, h2, h3, h4, h5, h6⟩ := H
  have hlen : h.timestamps.length = min inputs.length MAX_DATA_POINTS := by
    rw [h1, mostRecent_length, List.length_map]
  have key : ∀ {β : Type} (f : String × SystemData → β),
      mostRecent MAX_DATA_POINTS ((inputs ++ [(timestamp, data)]).map f) =
        if MAX_DATA_POINTS < h.timestamps.length + 1 then
          (mostRecent MAX_DATA_POINTS (inputs.map f) ++ [f (timestamp, data)]).tail
        else mostRecent MAX_DATA_POINTS (inputs.map f) ++ [f (timestamp, data)] := by
    intro β f
    rw [List.map_append, List.map_singleton, mostRecent_snoc _ (by decide)]
    have : (mostRecent MAX_DATA_POINTS (inputs.map f) ++ [f (timestamp, data)]).length =
        h.timestamps.length + 1 := by
      rw [List.length_append, mostRecent_length, List.length_map, hlen]
      rfl
    rw [this]
  unfold HoldsRecent
  rw [key, key, key, key, key, key]
  unfold trimHistory pushPoint
  by_cases hc : MAX_DATA_POINTS < h.timestamps.length + 1
  · simp only [List.length_append, List.length_singleton, gt_iff_lt, hc, if_true]
    simp [h1, h2, h3, h4, h5, h6]
  · simp only [List.length_append, List.length_singleton, gt_iff_lt, hc, if_false]
    simp [h1, h2, h3, h4, h5, h6]

theorem handleSystemData_isMonitoring (c : Client) (timestamp : String) (r : Received) :
    (handleSystemData c timestamp r).isMonitoring = c.isMonitoring := by
  cases r with
  | absent => rfl
  | failed e =>
      simp only [handleSystemData]
      split <;> rfl
  | snapshot d =>
      simp only [handleSystemData]
      split <;> rfl

theorem handleAll_snapshots (inputs : List (String × SystemData)) :
    ∀ (c : Client) (seen : List (String × SystemData)), c.isMonitoring = true →
      HoldsRecent c.dataHistory seen →
      HoldsRecent
        (handleAll c (inputs.map fun p => (p.1, Received.snapshot p.2))).dataHistory
        (seen ++ inputs) := by
  induction inputs with
  | nil => intro c seen _ H; simpa [handleAll] using H
  | cons p rest ih =>
      intro c seen hm H
      simp only [List.map_cons, handleAll]
      have hstep : handleSystemData c p.1 (Received.snapshot p.2) =
          { c with dataHistory := trimHistory (pushPoint c.dataHistory p.1 p.2) } := by
        simp [handleSystemData, hm]
      have := ih (handleSystemData c p.1 (Received.snapshot p.2)) (seen ++ [p])
        (by rw [handleSystemData_isMonitoring]; exact hm)
        (by rw [hstep]; exact holdsRecent_step c.dataHistory seen p.1 p.2 H)
      simpa using this

/-- C3: after `startMonitoring` and `n` accepted calls of `handleSystemData`,
each of the series timestamps, cpu, memory, network.rx, network.tx and gpu is
the list of the values derived from the snapshots, in arrival order, without
its first `n - MAX_DATA_POINTS` elements (none when `n` is at most
`MAX_DATA_POINTS`), and has length `min n MAX_DATA_POINTS`; so after
`MAX_DATA_POINTS + k` calls the `k` oldest points are the ones gone and the
length is exactly `MAX_DATA_POINTS`. -/
theorem history_holds_most_recent_points (c0 : Client) (now : Nat)
    (inputs : List (String × SystemData)) :
    HoldsRecent
        (handleAll (startMonitoring c0 now)
          (inputs.map fun p => (p.1, Received.snapshot p.2))).dataHistory inputs ∧
    (handleAll (startMonitoring c0 now)
        (inputs.map fun p => (p.1, Received.snapshot p.2))).dataHistory.timestamps =
      (inputs.map fun p => p.1).drop (inputs.length - 600) ∧
    Aligned
        (handleAll (startMonitoring c0 now)
          (inputs.map fun p => (p.1, Received.snapshot p.2))).dataHistory ∧
    (handleAll (startMonitoring c0 now)
        (inputs.map fun p => (p.1, Received.snapshot p.2))).dataHistory.timestamps.length =
      min inputs.length 600 := by
  have H := handleAll_snapshots inputs (startMonitoring c0 now) []
    (by simp [startMonitoring, startTimer])
    (by simpa [startMonitoring, startTimer] using holdsRecent_empty)
  rw [List.nil_append] at H
  obtain ⟨h1, h2, h3, h4, h5, h6⟩ := H
  refine ⟨⟨h1, h2, h3, h4, h5, h6⟩, ?_, ?_, ?_⟩
  · rw [h1]; simp [mostRecent, MAX_DATA_POINTS]
  · simp only [Aligned, h1, h2, h3, h4, h5, h6, mostRecent_length, List.length_map]
    simp
  · rw [h1, mostRecent_length, List.length_map]; rfl

theorem mostRecent_snoc_of_le {β : Type} (n : Nat) (l : List β) (y : β) (hl : l.length ≤ n) :
    mostRecent n (l ++ [y]) = if n < l.length + 1 then (l ++ [y]).tail else l ++ [y] := by
  unfold mostRecent
  by_cases h : n < l.length + 1
  · have : (l ++ [y]).length - n = 1 := by simp; omega
    rw [this, if_pos h, List.drop_one]
  · have : (l ++ [y]).length - n = 0 := by simp; omega
    rw [this, if_neg h, List.drop_zero]

theorem aligned_empty : Aligned DataHistory.empty := by
  simp [Aligned, DataHistory.empty]

theorem aligned_step (h : DataHistory) (timestamp : String) (data : SystemData)
    (A : Aligned h) : Aligned (trimHistory (pushPoint h timestamp data)) := by
  obtain ⟨a1, a2, a3, a4, a5, a6⟩ := A
  unfold trimHistory pushPoint Aligned
  by_cases hc : MAX_DATA_POINTS < h.timestamps.length + 1
  · simp only [List.length_append, List.length_singleton, gt_iff_lt, hc, if_true,
      List.length_tail]
    simp only [MAX_DATA_POINTS] at hc a6 ⊢
    omega
  · simp only [List.length_append, List.length_singleton, gt_iff_lt, hc, if_false]
    simp only [MAX_DATA_POINTS] at hc a6 ⊢
    omega

theorem handleSystemData_aligned (c : Client) (timestamp : String) (r : Received)
    (hr : r ≠ Received.failed "") (A : Aligned c.dataHistory) :
    Aligned (handleSystemData c timestamp r).dataHistory := by
  cases r with
  | absent => exact A
  | failed e =>
      have he : e ≠ "" := fun h => hr (by rw [h])
      simp only [handleSystemData, he, and_false, if_false]
      exact A
  | snapshot d =>
      simp only [handleSystemData]
      split
      · exact aligned_step _ _ _ A
      · exact A

theorem handleAll_aligned (calls : List (String × Received))
    (hcalls : ∀ call ∈ calls, call.2 ≠ Received.failed "") :
    ∀ c : Client, Aligned c.dataHistory → Aligned (handleAll c calls).dataHistory := by
  induction calls with
  | nil => intro c A; exact A
  | cons call rest ih =>
      intro c A
      exact ih (fun x hx => hcalls x (List.mem_cons_of_mem _ hx)) _
        (handleSystemData_aligned c call.1 call.2 (hcalls call (List.mem_cons_self _ _)) A)

theorem handleAll_isMonitoring (calls : List (String × Received)) :
    ∀ c : Client, (handleAll c calls).isMonitoring = c.isMonitoring := by
  induction calls with
  | nil => intro c; rfl
  | cons call rest ih =>
      intro c
      simp only [handleAll]
      rw [ih, handleSystemData_isMonitoring]

/-- Alignment away from the empty-message failure payload: after
`startMonitoring` and any sequence of `handleSystemData` calls none of which
carries a failure payload with the empty message, the series timestamps, cpu,
memory, network.rx, network.tx and gpu have one common length; and a further
snapshot whose network list (or gpu list) is missing or empty adds exactly one
value 0 at the end of network.rx and network.tx (or of gpu), the oldest point
leaving when the series was full. -/
theorem series_stay_aligned_without_empty_error (c0 : Client) (now : Nat)
    (calls : List (String × Received)) (timestamp : String) (data : SystemData)
    (hcalls : ∀ call ∈ calls, call.2 ≠ Received.failed "") :
    Aligned (handleAll (startMonitoring c0 now) calls).dataHistory ∧
    Aligned (handleSystemData (handleAll (startMonitoring c0 now) calls) timestamp
      (.snapshot data)).dataHistory ∧
    ((data.network = none ∨ data.network = some []) →
      (handleSystemData (handleAll (startMonitoring c0 now) calls) timestamp
          (.snapshot data)).dataHistory.networkRx =
        mostRecent MAX_DATA_POINTS
          ((handleAll (startMonitoring c0 now) calls).dataHistory.networkRx ++ [0]) ∧
      (handleSystemData (handleAll (startMonitoring c0 now) calls) timestamp
          (.snapshot data)).dataHistory.networkTx =
        mostRecent MAX_DATA_POINTS
          ((handleAll (startMonitoring c0 now) calls).dataHistory.networkTx ++ [0])) ∧
    ((data.gpu = none ∨ data.gpu = some []) →
      (handleSystemData (handleAll (startMonitoring c0 now) calls) timestamp
          (.snapshot data)).dataHistory.gpu =
        mostRecent MAX_DATA_POINTS
          ((handleAll (startMonitoring c0 now) calls).dataHistory.gpu ++ [0])) := by
  have A : Aligned (handleAll (startMonitoring c0 now) calls).dataHistory :=
    handleAll_aligned calls hcalls _
      (by simpa [startMonitoring, startTimer] using aligned_empty)
  have hm : (handleAll (startMonitoring c0 now) calls).isMonitoring = true := by
    rw [handleAll_isMonitoring]; simp [startMonitoring, startTimer]
  generalize handleAll (startMonitoring c0 now) calls = c at A hm
  have hstep : handleSystemData c timestamp (Received.snapshot data) =
      { c with dataHistory := trimHistory (pushPoint c.dataHistory timestamp data) } := by
    simp [handleSystemData, hm]
  obtain ⟨a1, a2, a3, a4, a5, a6⟩ := A
  refine ⟨⟨a1, a2, a3, a4, a5, a6⟩, ?_, ?_, ?_⟩
  · rw [hstep]; exact aligned_step _ _ _ ⟨a1, a2, a3, a4, a5, a6⟩
  · intro hnet
    have hp : networkPoint data.network = (0, 0) := by
      rcases hnet with h | h <;> simp [h, networkPoint]
    rw [hstep, mostRecent_snoc_of_le _ _ _ (by omega), mostRecent_snoc_of_le _ _ _ (by omega)]
    simp only [trimHistory, pushPoint, hp, List.length_append, List.length_singleton,
      gt_iff_lt, a3, a4]
    split <;> exact ⟨rfl, rfl⟩
  · intro hgpu
    have hp : gpuPoint data.gpu = 0 := by
      rcases hgpu with h | h <;> simp [h, gpuPoint]
    rw [hstep, mostRecent_snoc_of_le _ _ _ (by omega)]
    simp only [trimHistory, pushPoint, hp, List.length_append, List.length_singleton,
      gt_iff_lt, a5]
    split <;> rfl

/-! ## Properties of the sessions (`io.on('connection')` handlers) -/

theorem run_append (a b : List Event) :
    ∀ srv : Server, run srv (a ++ b) =
      ((run (run srv a).1 b).1, (run srv a).2 ++ (run (run srv a).1 b).2) := by
  induction a with
  | nil => intro srv; simp [run]
  | cons e rest ih => intro srv; simp [run, ih, List.append_assoc]

theorem filter_owner_clear (l : List (Nat × Nat)) (handle socket : Nat) :
    (clearInterval l handle).filter (fun t => t.2 == socket) =
      (l.filter fun t => t.2 == socket).filter fun t => t.1 != handle := by
  simp only [clearInterval, List.filter_filter]
  congr 1
  funext t
  exact Bool.and_comm _ _

theorem mem_clearInterval {l : List (Nat × Nat)} {handle : Nat} {t : Nat × Nat}
    (h : t ∈ clearInterval l handle) : t ∈ l ∧ t.1 ≠ handle := by
  simpa [clearInterval] using h

theorem timersOk_initial : TimersOk Server.initial := by
  refine ⟨?_, ?_, ?_⟩
  · intro t ht; simp [Server.initial] at ht
  · intro t ht; simp [Server.initial] at ht
  · intro socket; simp [Server.initial, timersOf]

/-- The timer recorded for a socket is scheduled. -/
theorem TimersOk.mem_of_some {srv : Server} (ok : TimersOk srv) {socket handle : Nat}
    (h : srv.monitoringInterval socket = some handle) : (handle, socket) ∈ srv.intervals := by
  have h3 := ok.2.2 socket
  rw [h] at h3
  have : (handle, socket) ∈ timersOf srv socket := by rw [h3]; simp
  exact (List.mem_filter.mp this).1

/-- Clearing the timer of one socket leaves the timers of every other socket. -/
theorem TimersOk.clear_other {srv : Server} (ok : TimersOk srv) {socket other handle : Nat}
    (h : srv.monitoringInterval socket = some handle) (hne : other ≠ socket) :
    (clearInterval srv.intervals handle).filter (fun t => t.2 == other) =
      timersOf srv other := by
  rw [filter_owner_clear]
  apply List.filter_eq_self.mpr
  intro t ht
  have htin : t ∈ srv.intervals := (List.mem_filter.mp ht).1
  have hto : t.2 = other := by simpa using (List.mem_filter.mp ht).2
  have hmem := ok.mem_of_some h
  have : t.1 ≠ handle := by
    intro heq
    have := ok.2.1 t htin (handle, socket) hmem heq
    exact hne (hto ▸ this)
  simpa using this

/-- Clearing the timer of a socket leaves that socket without timer. -/
theorem TimersOk.clear_own {srv : Server} (ok : TimersOk srv) {socket handle : Nat}
    (h : srv.monitoringInterval socket = some handle) :
    (clearInterval srv.intervals handle).filter (fun t => t.2 == socket) = [] := by
  rw [filter_owner_clear]
  have h3 := ok.2.2 socket
  rw [h] at h3
  unfold timersOf at h3
  rw [h3]
  simp

theorem timersOk_stop (srv : Server) (socket : Nat) (ok : TimersOk srv) :
    TimersOk (onStopMonitoring srv socket) := by
  unfold onStopMonitoring
  cases h : srv.monitoringInterval socket with
  | none => simpa using ok
  | some handle =>
      refine ⟨?_, ?_, ?_⟩
      · intro t ht
        exact ok.1 t (mem_clearInterval ht).1
      · intro t ht u hu
        exact ok.2.1 t (mem_clearInterval ht).1 u (mem_clearInterval hu).1
      · intro other
        by_cases hso : other = socket
        · subst hso
          simp only [timersOf, Function.update_same]
          exact ok.clear_own h
        · simp only [timersOf, Function.update_noteq hso]
          rw [ok.clear_other h hso]
          exact ok.2.2 other

theorem timersOk_start (srv : Server) (socket : Nat) (ok : TimersOk srv) :
    TimersOk (onStartMonitoring srv socket) := by
  have hsub : ∀ t ∈ (match srv.monitoringInterval socket with
      | some handle => clearInterval srv.intervals handle
      | none => srv.intervals), t ∈ srv.intervals := by
    intro t ht
    cases h : srv.monitoringInterval socket with
    | none => simpa [h] using ht
    | some handle => rw [h] at ht; exact (mem_clearInterval ht).1
  have hown : (match srv.monitoringInterval socket with
      | some handle => clearInterval srv.intervals handle
      | none => srv.intervals).filter (fun t : Nat × Nat => t.2 == socket) = [] := by
    cases h : srv.monitoringInterval socket with
    | none =>
        have h3 := ok.2.2 socket
        rw [h] at h3
        simpa [timersOf] using h3
    | some handle => exact ok.clear_own h
  have hother : ∀ other, other ≠ socket → (match srv.monitoringInterval socket with
      | some handle => clearInterval srv.intervals handle
      | none => srv.intervals).filter (fun t : Nat × Nat => t.2 == other) =
        timersOf srv other := by
    intro other hne
    cases h : srv.monitoringInterval socket with
    | none => rfl
    | some handle => exact ok.clear_other h hne
  unfold onStartMonitoring
  refine ⟨?_, ?_, ?_⟩
  · intro t ht
    simp only [List.mem_append, List.mem_singleton] at ht
    rcases ht with ht | ht
    · have := ok.1 t (hsub t ht)
      simp only
      omega
    · subst ht
      simp
  · intro t ht u hu heq
    simp only [List.mem_append, List.mem_singleton] at ht hu
    rcases ht with ht | ht <;> rcases hu with hu | hu
    · exact ok.2.1 t (hsub t ht) u (hsub u hu) heq
    · subst hu
      have := ok.1 t (hsub t ht)
      simp only at heq
      omega
    · subst ht
      have := ok.1 u (hsub u hu)
      simp only at heq
      omega
    · subst ht; subst hu; rfl
  · intro other
    by_cases hso : other = socket
    · subst hso
      simp only [timersOf, Function.update_same, List.filter_append, hown]
      simp
    · simp only [timersOf, Function.update_noteq hso, List.filter_append]
      rw [hother other hso]
      have : ([(srv.nextHandle, socket)].filter fun t => t.2 == other) = [] := by
        simp [List.filter_cons, Ne.symm hso]
      rw [this, List.append_nil]
      exact ok.2.2 other

theorem step_timers (srv : Server) (handle now : Nat) (provider : Except String RawSample) :
    (step srv (.tick handle now provider)).1.intervals = srv.intervals ∧
    (step srv (.tick handle now provider)).1.nextHandle = srv.nextHandle ∧
    (step srv (.tick handle now provider)).1.monitoringInterval = srv.monitoringInterval := by
  simp only [step]
  split <;> exact ⟨rfl, rfl, rfl⟩

theorem timersOk_step (srv : Server) (e : Event) (ok : TimersOk srv) :
    TimersOk (step srv e).1 := by
  cases e with
  | startMonitoring socket => exact timersOk_start srv socket ok
  | stopMonitoring socket => exact timersOk_stop srv socket ok
  | disconnect socket => exact timersOk_stop srv socket ok
  | tick handle now provider =>
      obtain ⟨h1, h2, h3⟩ := step_timers srv handle now provider
      unfold TimersOk timersOf
      rw [h1, h2, h3]
      exact ok
  | apiSystemInfo now provider => exact ok

theorem timersOk_run (events : List Event) :
    ∀ srv : Server, TimersOk srv → TimersOk (run srv events).1 := by
  induction events with
  | nil => intro srv ok; exact ok
  | cons e rest ih => intro srv ok; exact ih _ (timersOk_step srv e ok)

/-- In a consistent state the timer recorded for a socket is the one a tick
with its handle belongs to. -/
theorem TimersOk.find_of_some {srv : Server} (ok : TimersOk srv) {socket handle : Nat}
    (h : srv.monitoringInterval socket = some handle) :
    srv.intervals.find? (fun t => t.1 == handle) = some (handle, socket) := by
  have hmem := ok.mem_of_some h
  cases hf : srv.intervals.find? (fun t => t.1 == handle) with
  | none =>
      have := List.find?_eq_none.mp hf (handle, socket) hmem
      simp at this
  | some t =>
      have ht1 : t.1 = handle := by simpa using List.find?_some hf
      have htin : t ∈ srv.intervals := List.mem_of_find?_eq_some hf
      have ht2 : t.2 = socket := ok.2.1 t htin (handle, socket) hmem ht1
      cases t
      simp only at ht1 ht2
      rw [ht1, ht2]

/-- A tick of the timer recorded for a socket runs `getSystemInfo` on the
server-wide baselines and sends the result to that socket as `system-data`. -/
theorem step_tick_of_some {srv : Server} (ok : TimersOk srv) {socket handle : Nat}
    (h : srv.monitoringInterval socket = some handle) (now : Nat)
    (provider : Except String RawSample) :
    step srv (.tick handle now provider) =
      ({ srv with globals := (getSystemInfo srv.globals now provider).2 },
       [.emitSystemData socket (getSystemInfo srv.globals now provider).1]) := by
  simp [step, ok.find_of_some h, tickCallback]

theorem step_api (srv : Server) (now : Nat) (provider : Except String RawSample) :
    step srv (.apiSystemInfo now provider) =
      ({ srv with globals := (getSystemInfo srv.globals now provider).2 },
       [.json (getSystemInfo srv.globals now provider).1]) := by
  simp [step, apiSystemInfo]

theorem onStartMonitoring_some (srv : Server) (socket : Nat) :
    (onStartMonitoring srv socket).monitoringInterval socket = some srv.nextHandle := by
  simp [onStartMonitoring]

theorem onStopMonitoring_nextHandle (srv : Server) (socket : Nat) :
    (onStopMonitoring srv socket).nextHandle = srv.nextHandle ∧
    (onStopMonitoring srv socket).globals = srv.globals := by
  unfold onStopMonitoring
  split <;> exact ⟨rfl, rfl⟩

/-- C9: in every state the server reaches, at most one interval timer is
scheduled for a socket; and after `start-monitoring` handled twice in a row
for a socket exactly one timer is scheduled for it, the second one, the timer
of the first start being no longer scheduled. -/
theorem at_most_one_tick_timer (events : List Event) (socket : Nat) :
    (timersOf (run Server.initial events).1 socket).length ≤ 1 ∧
    (run Server.initial (events ++ [.startMonitoring socket])).1.monitoringInterval socket =
      some (run Server.initial events).1.nextHandle ∧
    timersOf
        (run Server.initial
          (events ++ [.startMonitoring socket, .startMonitoring socket])).1 socket =
      [((run Server.initial events).1.nextHandle + 1, socket)] ∧
    ((run Server.initial events).1.nextHandle, socket) ∉
      (run Server.initial
        (events ++ [.startMonitoring socket, .startMonitoring socket])).1.intervals := by
  have ok := timersOk_run events Server.initial timersOk_initial
  generalize hs : (run Server.initial events).1 = srv at ok
  have ok1 := timersOk_start srv socket ok
  have ok2 := timersOk_start (onStartMonitoring srv socket) socket ok1
  have h2 : (onStartMonitoring (onStartMonitoring srv socket) socket).monitoringInterval socket =
      some (srv.nextHandle + 1) := by
    rw [onStartMonitoring_some]; rfl
  have t2 := ok2.2.2 socket
  rw [h2] at t2
  refine ⟨?_, ?_, ?_, ?_⟩
  · have h3 := ok.2.2 socket
    rw [h3]
    cases srv.monitoringInterval socket <;> simp
  · rw [run_append]
    simp only [hs, run, step]
    exact onStartMonitoring_some srv socket
  · rw [run_append]
    simp only [hs, run, step]
    exact t2
  · rw [run_append]
    simp only [hs, run, step]
    intro hmem
    have : (srv.nextHandle, socket) ∈
        timersOf (onStartMonitoring (onStartMonitoring srv socket) socket) socket := by
      unfold timersOf
      exact List.mem_filter.mpr ⟨hmem, by simp⟩
    rw [t2] at this
    simp at this

/-- C5 (as stated, refuted): a session takes a sample with disk read counter
1000, is stopped and started again, and its first sample after the restart
reads 1500; the snapshot delivered for it has read rate 1000, not 0. -/
theorem restart_rate_counterexample :
    (deliveredTo 7
        (run Server.initial
          [.startMonitoring 7, .tick 0 0 (.ok (sampleOf [] 1000 0)),
           .stopMonitoring 7, .startMonitoring 7,
           .tick 1 500 (.ok (sampleOf [] 1500 0))]).2).map Payload.readSpeed =
      [some 0, some 1000] ∧
    (1000 : ℚ) ≠ 0 := by
  refine ⟨?_, by norm_num⟩
  simp [run, step, onStartMonitoring, onStopMonitoring, clearInterval, Server.initial,
    Globals.initial, tickCallback, deliveredTo, getSystemInfo, sampleOf, diskIOInfo, timeDiff,
    Payload.readSpeed, Function.update]
  norm_num

/-- C5 (amended): `stop-monitoring` followed by `start-monitoring` leaves the
stored rate baselines as they were, and the first snapshot produced by the new
timer is the one `getSystemInfo` computes against those baselines: its rates
are measured against the last successful sample taken before the stop, and are
0 only for streams that had no stored observation. -/
theorem restart_keeps_rate_baselines (events : List Event) (socket now : Nat)
    (provider : Except String RawSample) :
    (run Server.initial
        (events ++ [.stopMonitoring socket, .startMonitoring socket])).1.globals =
      (run Server.initial events).1.globals ∧
    (run Server.initial
        (events ++ [.stopMonitoring socket, .startMonitoring socket])).1.monitoringInterval
        socket = some (run Server.initial events).1.nextHandle ∧
    (run Server.initial
        (events ++ [.stopMonitoring socket, .startMonitoring socket,
          .tick (run Server.initial events).1.nextHandle now provider])).2 =
      (run Server.initial events).2 ++
        [.emitSystemData socket
          (getSystemInfo (run Server.initial events).1.globals now provider).1] := by
  have ok := timersOk_run events Server.initial timersOk_initial
  generalize hs : (run Server.initial events).1 = srv at ok
  have ok1 := timersOk_stop srv socket ok
  have ok2 := timersOk_start _ socket ok1
  obtain ⟨hn, hg⟩ := onStopMonitoring_nextHandle srv socket
  have hm : (onStartMonitoring (onStopMonitoring srv socket) socket).monitoringInterval socket =
      some srv.nextHandle := by
    rw [onStartMonitoring_some, hn]
  have hg2 : (onStartMonitoring (onStopMonitoring srv socket) socket).globals = srv.globals := by
    simp [onStartMonitoring, hg]
  refine ⟨?_, ?_, ?_⟩
  · rw [run_append]
    simp only [hs, run, step]
    exact hg2
  · rw [run_append]
    simp only [hs, run, step]
    exact hm
  · rw [run_append]
    simp only [hs, run]
    have e1 : step srv (.stopMonitoring socket) = (onStopMonitoring srv socket, []) := rfl
    have e2 : step (onStopMonitoring srv socket) (.startMonitoring socket) =
        (onStartMonitoring (onStopMonitoring srv socket) socket, []) := rfl
    rw [e1, e2, step_tick_of_some ok2 hm, hg2]
    simp

/-- C6 (as stated, refuted): client 1 takes the same two samples (read counter
1000, then 1500) in both runs; in the second run a sample taken for client 2,
or for a `/api/system-info` query, falls between them, and the read rate
delivered to client 1 for its second sample changes from 1000 to 200. -/
theorem session_isolation_counterexample :
    (deliveredTo 1
        (run Server.initial
          [.startMonitoring 1, .startMonitoring 2,
           .tick 0 0 (.ok (sampleOf [] 1000 0)),
           .tick 0 500 (.ok (sampleOf [] 1500 0))]).2).map Payload.readSpeed =
      [some 0, some 1000] ∧
    (deliveredTo 1
        (run Server.initial
          [.startMonitoring 1, .startMonitoring 2,
           .tick 0 0 (.ok (sampleOf [] 1000 0)),
           .tick 1 250 (.ok (sampleOf [] 1400 0)),
           .tick 0 500 (.ok (sampleOf [] 1500 0))]).2).map Payload.readSpeed =
      [some 0, some 200] ∧
    (deliveredTo 1
        (run Server.initial
          [.startMonitoring 1, .startMonitoring 2,
           .tick 0 0 (.ok (sampleOf [] 1000 0)),
           .apiSystemInfo 250 (.ok (sampleOf [] 1400 0)),
           .tick 0 500 (.ok (sampleOf [] 1500 0))]).2).map Payload.readSpeed =
      [some 0, some 200] ∧
    (1000 : ℚ) ≠ 200 := by
  refine ⟨?_, ?_, ?_, by norm_num⟩
  · simp [run, step, onStartMonitoring, Server.initial, Globals.initial, tickCallback,
      deliveredTo, getSystemInfo, sampleOf, diskIOInfo, timeDiff, Payload.readSpeed,
      Function.update]
    norm_num
  · simp [run, step, onStartMonitoring, Server.initial, Globals.initial, tickCallback,
      deliveredTo, getSystemInfo, sampleOf, diskIOInfo, timeDiff, Payload.readSpeed,
      Function.update]
    norm_num
  · simp [run, step, onStartMonitoring, Server.initial, Globals.initial, tickCallback,
      apiSystemInfo, deliveredTo, getSystemInfo, sampleOf, diskIOInfo, timeDiff,
      Payload.readSpeed, Function.update]
    norm_num

/-- C6 (amended): rate state is server-wide. When a successful sample is taken
for any requester (a tick of client `b`, or a `/api/system-info` query) and the
next sample is taken for client `a`, the snapshot delivered to `a` is the one
`getSystemInfo` computes against the counters of that other requester's
sample. -/
theorem rates_follow_latest_sample_of_any_requester (events : List Event)
    (a b handleA handleB nowB now : Nat) (rawB : RawSample) (d : DiskIO)
    (provider : Except String RawSample)
    (ha : (run Server.initial events).1.monitoringInterval a = some handleA)
    (hb : (run Server.initial events).1.monitoringInterval b = some handleB)
    (hd : rawB.diskIO = some d) :
    deliveredTo a
        (run (run Server.initial events).1
          [.tick handleB nowB (.ok rawB), .tick handleA now provider]).2 =
      deliveredTo a
          [.emitSystemData b
            (getSystemInfo (run Server.initial events).1.globals nowB (.ok rawB)).1] ++
        [(getSystemInfo { previousNetworkStats := some rawB.networkStats,
                          previousDiskIO := some d } now provider).1] ∧
    deliveredTo a
        (run (run Server.initial events).1
          [.apiSystemInfo nowB (.ok rawB), .tick handleA now provider]).2 =
      [(getSystemInfo { previousNetworkStats := some rawB.networkStats,
                        previousDiskIO := some d } now provider).1] := by
  have ok := timersOk_run events Server.initial timersOk_initial
  generalize (run Server.initial events).1 = srv at ok ha hb
  have hgl : (getSystemInfo srv.globals nowB (.ok rawB)).2 =
      { previousNetworkStats := some rawB.networkStats, previousDiskIO := some d } := by
    rw [getSystemInfo_ok _ _ _ _ hd]
  have okB : TimersOk (step srv (.tick handleB nowB (.ok rawB))).1 := timersOk_step _ _ ok
  have okApi : TimersOk (step srv (.apiSystemInfo nowB (.ok rawB))).1 := timersOk_step _ _ ok
  constructor
  · simp only [run]
    have haB : (step srv (.tick handleB nowB (.ok rawB))).1.monitoringInterval a =
        some handleA := by
      rw [(step_timers srv handleB nowB (.ok rawB)).2.2]; exact ha
    rw [step_tick_of_some okB haB]
    rw [step_tick_of_some ok hb]
    simp only [hgl, List.append_nil, List.singleton_append]
    by_cases hab : b = a <;> simp [deliveredTo, hab]
  · simp only [run]
    have haApi : (step srv (.apiSystemInfo nowB (.ok rawB))).1.monitoringInterval a =
        some handleA := ha
    rw [step_tick_of_some okApi haApi]
    rw [step_api]
    simp only [hgl, List.append_nil, List.singleton_append]
    simp [deliveredTo]

/-- Witness for C6 (amended): clients 1 and 2 both monitoring, a sample with
read counter 1400 taken for client 2, then one with 1500 for client 1. -/
theorem rates_follow_latest_sample_of_any_requester_witness :
    deliveredTo 1
        (run (run Server.initial [.startMonitoring 1, .startMonitoring 2]).1
          [.apiSystemInfo 250 (.ok (sampleOf [] 1400 0)),
           .tick 0 500 (.ok (sampleOf [] 1500 0))]).2 =
      [(getSystemInfo { previousNetworkStats := some [],
                        previousDiskIO := some { rIO := 1400, wIO := 0 } }
          500 (.ok (sampleOf [] 1500 0))).1] :=
  (rates_follow_latest_sample_of_any_requester [.startMonitoring 1, .startMonitoring 2]
    1 2 0 1 250 500 (sampleOf [] 1400 0) { rIO := 1400, wIO := 0 }
    (.ok (sampleOf [] 1500 0)) (by decide) (by decide) rfl).2

/-- C10 (as stated, refuted): a running session whose provider fails at a tick
is sent one `system-data` event carrying the failure payload, and no `error`
event. -/
theorem provider_failure_event_counterexample :
    (run Server.initial
        [.startMonitoring 7, .tick 0 500 (.error "provider down")]).2 =
      [.emitSystemData 7 (.failure "provider down" 500)] ∧
    Output.emitError 7 "provider down" ∉
      (run Server.initial
        [.startMonitoring 7, .tick 0 500 (.error "provider down")]).2 := by
  have h : (run Server.initial
        [.startMonitoring 7, .tick 0 500 (.error "provider down")]).2 =
      [.emitSystemData 7 (.failure "provider down" 500)] := by
    simp [run, step, onStartMonitoring, Server.initial, tickCallback, getSystemInfo]
  refine ⟨h, ?_⟩
  rw [h]
  simp

/-- C10 (amended): when the provider fails during a tick of a running session,
`getSystemInfo` turns the failure into the payload `{error, timestamp}`, the
server sends it to that client as a `system-data` event and sends no `error`
event, and the server state, with the session's timer still scheduled, is
unchanged. -/
theorem provider_failure_sent_as_system_data (events : List Event)
    (socket handle now : Nat) (message : String)
    (h : (run Server.initial events).1.monitoringInterval socket = some handle) :
    (step (run Server.initial events).1 (.tick handle now (.error message))).2 =
      [.emitSystemData socket (.failure message now)] ∧
    (step (run Server.initial events).1 (.tick handle now (.error message))).1.globals =
      (run Server.initial events).1.globals ∧
    (step (run Server.initial events).1
        (.tick handle now (.error message))).1.monitoringInterval socket = some handle ∧
    timersOf (step (run Server.initial events).1 (.tick handle now (.error message))).1 socket =
      [(handle, socket)] := by
  have ok := timersOk_run events Server.initial timersOk_initial
  generalize (run Server.initial events).1 = srv at ok h
  rw [step_tick_of_some ok h]
  have h3 := ok.2.2 socket
  rw [h] at h3
  exact ⟨by simp [getSystemInfo], by simp [getSystemInfo], h, h3⟩

/-- Witness for C10 (amended): client 7 is monitoring with timer 0. -/
theorem provider_failure_sent_as_system_data_witness :
    (step (run Server.initial [.startMonitoring 7]).1
        (.tick 0 500 (.error "provider down"))).2 =
      [.emitSystemData 7 (.failure "provider down" 500)] ∧
    timersOf (step (run Server.initial [.startMonitoring 7]).1
        (.tick 0 500 (.error "provider down"))).1 7 = [(0, 7)] :=
  ⟨(provider_failure_sent_as_system_data [.startMonitoring 7] 7 0 500 "provider down"
      (by decide)).1,
   (provider_failure_sent_as_system_data [.startMonitoring 7] 7 0 500 "provider down"
      (by decide)).2.2.2⟩

/-! ## Properties of the page timer (`startTimer`, `stopMonitoring`) -/

theorem progress_bounds (n : Nat) (h : n ≤ MAX_MONITORING_SECONDS) :
    (0 : ℚ) ≤ ((n : ℚ) / (MAX_MONITORING_SECONDS : ℚ)) * 100 ∧
    ((n : ℚ) / (MAX_MONITORING_SECONDS : ℚ)) * 100 ≤ 100 := by
  have hn : (n : ℚ) ≤ 300 := by
    have : n ≤ 300 := h
    exact_mod_cast this
  have h0 : (0 : ℚ) ≤ (n : ℚ) := by exact_mod_cast Nat.zero_le n
  simp only [MAX_MONITORING_SECONDS]
  constructor
  · positivity
  · push_cast
    linarith

theorem pageOk_initial : PageOk Client.initial := by
  simp [PageOk, Client.initial, MAX_MONITORING_SECONDS]

theorem pageOk_start (c : Client) (now : Nat) (ok : PageOk c)
    (henabled : c.startBtnDisabled = false) : PageOk (startMonitoring c now) := by
  obtain ⟨_, w0, w1, ht⟩ := ok
  cases htimer : c.timerInterval with
  | some handle =>
      rw [htimer] at ht
      rw [ht.2.2.1] at henabled
      cases henabled
  | none =>
      rw [htimer] at ht
      simp only at ht
      simp [PageOk, startMonitoring, startTimer, ht, w0, w1, MAX_MONITORING_SECONDS]

theorem pageOk_stop (c : Client) (ok : PageOk c) : PageOk (stopMonitoring c) := by
  obtain ⟨e, w0, w1, ht⟩ := ok
  cases htimer : c.timerInterval with
  | some handle =>
      rw [htimer] at ht
      simp [PageOk, stopMonitoring, stopTimer, htimer, ht.1, e, w0, w1]
  | none =>
      rw [htimer] at ht
      simp only at ht
      simp [PageOk, stopMonitoring, stopTimer, htimer, ht, e, w0, w1]

theorem pageOk_tick (c : Client) (ok : PageOk c) (handle : Nat)
    (hfire : handle ∈ c.intervals) : PageOk (timerTick c) := by
  obtain ⟨e, w0, w1, ht⟩ := ok
  cases htimer : c.timerInterval with
  | none =>
      rw [htimer] at ht
      simp only at ht
      rw [ht] at hfire
      cases hfire
  | some recorded =>
      rw [htimer] at ht
      obtain ⟨hi, hm, hs, hlt⟩ := ht
      have hb := progress_bounds (c.elapsedSeconds + 1) hlt
      have hcast : (((c.elapsedSeconds + 1 : Nat) : ℚ)) = (c.elapsedSeconds : ℚ) + 1 := by
        push_cast; rfl
      rw [hcast] at hb
      unfold timerTick
      by_cases hreach : MAX_MONITORING_SECONDS ≤ c.elapsedSeconds + 1
      · have hle : c.elapsedSeconds + 1 ≤ MAX_MONITORING_SECONDS := by omega
        simp only [PageOk, updateTimerDisplay, showTimerCompleteModal, stopMonitoring,
          stopTimer, htimer, ge_iff_le, hreach, if_true]
        refine ⟨hle, ?_, ?_, ?_⟩
        · simpa using hb.1
        · simpa using hb.2
        · simp [hi]
      · have hlt2 : c.elapsedSeconds + 1 < MAX_MONITORING_SECONDS := by omega
        simp only [PageOk, updateTimerDisplay, htimer, ge_iff_le, hreach, if_false]
        refine ⟨by omega, ?_, ?_, hi, hm, hs, hlt2⟩
        · simpa using hb.1
        · simpa using hb.2

theorem handleSystemData_frame (c : Client) (timestamp : String) (r : Received) :
    ∃ h : DataHistory, handleSystemData c timestamp r = { c with dataHistory := h } := by
  cases r with
  | absent => exact ⟨c.dataHistory, rfl⟩
  | failed e =>
      simp only [handleSystemData]
      split
      · exact ⟨_, rfl⟩
      · exact ⟨c.dataHistory, rfl⟩
  | snapshot d =>
      simp only [handleSystemData]
      split
      · exact ⟨_, rfl⟩
      · exact ⟨c.dataHistory, rfl⟩

theorem pageOk_step (c : Client) (e : PageEvent) (ok : PageOk c) : PageOk (pageStep c e) := by
  cases e with
  | clickStart now =>
      simp only [pageStep]
      split
      · exact ok
      · exact pageOk_start c now ok (by simpa using ‹¬c.startBtnDisabled = true›)
  | clickStop =>
      simp only [pageStep]
      split
      · exact ok
      · exact pageOk_stop c ok
  | socketDisconnect =>
      simp only [pageStep]
      split
      · exact pageOk_stop c ok
      · exact ok
  | timerFires handle =>
      simp only [pageStep]
      split
      · exact pageOk_tick c ok handle (by simpa using ‹c.intervals.contains handle = true›)
      · exact ok
  | systemData timestamp data =>
      obtain ⟨h, hh⟩ := handleSystemData_frame c timestamp data
      simp only [pageStep, hh]
      exact ok
  | closeTimerModal => exact ok

theorem pageOk_run (events : List PageEvent) :
    ∀ c : Client, PageOk c → PageOk (pageRun c events) := by
  induction events with
  | nil => intro c ok; exact ok
  | cons e rest ih => intro c ok; exact ih _ (pageOk_step c e ok)

/-- What one firing of the page timer does in a consistent state where an
interval is scheduled. -/
theorem timerTick_of_pageOk (c : Client) (ok : PageOk c) (handle : Nat)
    (hfire : handle ∈ c.intervals) :
    c.isMonitoring = true ∧ c.timerInterval = some handle ∧ c.intervals = [handle] ∧
    (timerTick c).elapsedSeconds = c.elapsedSeconds + 1 ∧
    (c.elapsedSeconds + 1 < MAX_MONITORING_SECONDS →
      timerTick c = updateTimerDisplay { c with elapsedSeconds := c.elapsedSeconds + 1 }) ∧
    (c.elapsedSeconds + 1 = MAX_MONITORING_SECONDS →
      timerTick c = showTimerCompleteModal (stopMonitoring
        (updateTimerDisplay { c with elapsedSeconds := c.elapsedSeconds + 1 })) ∧
      (timerTick c).isMonitoring = false ∧ (timerTick c).timerInterval = none ∧
      (timerTick c).intervals = [] ∧
      (timerTick c).emitted = c.emitted ++ ["stop-monitoring"] ∧
      (timerTick c).timerCompleteModal = true) := by
  obtain ⟨e, w0, w1, ht⟩ := ok
  have key : c.timerInterval = some handle ∧ c.intervals = [handle] ∧
      c.isMonitoring = true ∧ c.elapsedSeconds < MAX_MONITORING_SECONDS := by
    cases htimer : c.timerInterval with
    | none =>
        rw [htimer] at ht
        simp only at ht
        rw [ht] at hfire
        cases hfire
    | some recorded =>
        rw [htimer] at ht
        obtain ⟨hi, hm, hs, hlt⟩ := ht
        have hrec : handle = recorded := by
          rw [hi] at hfire
          simpa using hfire
        subst hrec
        exact ⟨rfl, hi, hm, hlt⟩
  obtain ⟨htimer, hi, hm, hlt⟩ := key
  have hdef : timerTick c =
      if MAX_MONITORING_SECONDS ≤ c.elapsedSeconds + 1 then
        showTimerCompleteModal (stopMonitoring
          (updateTimerDisplay { c with elapsedSeconds := c.elapsedSeconds + 1 }))
      else updateTimerDisplay { c with elapsedSeconds := c.elapsedSeconds + 1 } := rfl
  refine ⟨hm, htimer, hi, ?_, ?_, ?_⟩
  · rw [hdef]
    split
    · simp only [updateTimerDisplay, showTimerCompleteModal, stopMonitoring, stopTimer]
      split <;> rfl
    · rfl
  · intro hlt2
    rw [hdef, if_neg (by omega)]
  · intro heq
    have hform : timerTick c = showTimerCompleteModal (stopMonitoring
        (updateTimerDisplay { c with elapsedSeconds := c.elapsedSeconds + 1 })) := by
      rw [hdef, if_pos (by omega)]
    refine ⟨hform, ?_, ?_, ?_, ?_, ?_⟩ <;> rw [hform] <;>
      simp [updateTimerDisplay, showTimerCompleteModal, stopMonitoring, stopTimer,
        htimer, hi]

/-- C11: in every state the page reaches from loading, `elapsedSeconds` is at
most 300, and a click on the stop button leaves the timer-complete dialog as it
was. When the scheduled timer fires, the page is monitoring and
`elapsedSeconds` goes up by 1; below 300 the session goes on; on reaching 300
the tick ends in `stopMonitoring` followed by `showTimerCompleteModal`, so that
the page no longer monitors, no timer is scheduled, `stop-monitoring` has been
sent and the dialog is shown. -/
theorem timer_tick_and_auto_stop (events : List PageEvent) (handle : Nat) (c : Client)
    (hc : c = pageRun Client.initial events) :
    c.elapsedSeconds ≤ 300 ∧
    (stopMonitoring c).timerCompleteModal = c.timerCompleteModal ∧
    (pageStep c .clickStop).timerCompleteModal = c.timerCompleteModal ∧
    (handle ∈ c.intervals →
      c.isMonitoring = true ∧ c.timerInterval = some handle ∧
      pageStep c (.timerFires handle) = timerTick c ∧
      (timerTick c).elapsedSeconds = c.elapsedSeconds + 1 ∧
      (c.elapsedSeconds + 1 < 300 →
        (timerTick c).isMonitoring = true ∧ (timerTick c).intervals = [handle] ∧
        (timerTick c).emitted = c.emitted ∧
        (timerTick c).timerCompleteModal = c.timerCompleteModal) ∧
      (c.elapsedSeconds + 1 = 300 →
        timerTick c = showTimerCompleteModal (stopMonitoring
          (updateTimerDisplay { c with elapsedSeconds := c.elapsedSeconds + 1 })) ∧
        (timerTick c).isMonitoring = false ∧ (timerTick c).timerInterval = none ∧
        (timerTick c).intervals = [] ∧
        (timerTick c).emitted = c.emitted ++ ["stop-monitoring"] ∧
        (timerTick c).timerCompleteModal = true)) := by
  have ok : PageOk c := by rw [hc]; exact pageOk_run events _ pageOk_initial
  have hstop : (stopMonitoring c).timerCompleteModal = c.timerCompleteModal := by
    simp only [stopMonitoring, stopTimer]
    split <;> rfl
  refine ⟨ok.1, hstop, ?_, ?_⟩
  · simp only [pageStep]
    split
    · rfl
    · exact hstop
  · intro hfire
    obtain ⟨hm, ht, hi, hinc, hbelow, hreach⟩ := timerTick_of_pageOk c ok handle hfire
    refine ⟨hm, ht, ?_, hinc, ?_, hreach⟩
    · simp [pageStep, hi]
    · intro hlt
      rw [hbelow hlt]
      simp [updateTimerDisplay, hm, hi]

/-- Witness for C11: the first tick after the start button is clicked. -/
theorem timer_tick_and_auto_stop_witness :
    (pageRun Client.initial [.clickStart 0]).elapsedSeconds ≤ 300 ∧
    (pageRun Client.initial [.clickStart 0]).isMonitoring = true ∧
    (timerTick (pageRun Client.initial [.clickStart 0])).elapsedSeconds =
      (pageRun Client.initial [.clickStart 0]).elapsedSeconds + 1 ∧
    (timerTick (pageRun Client.initial [.clickStart 0])).intervals = [1] :=
  ⟨(timer_tick_and_auto_stop [.clickStart 0] 1 _ rfl).1,
   ((timer_tick_and_auto_stop [.clickStart 0] 1 _ rfl).2.2.2 (by decide)).1,
   ((timer_tick_and_auto_stop [.clickStart 0] 1 _ rfl).2.2.2 (by decide)).2.2.2.1,
   (((timer_tick_and_auto_stop [.clickStart 0] 1 _ rfl).2.2.2 (by decide)).2.2.2.2.1
      (by decide)).2.1⟩

/-- C15 (as stated, refuted): with `elapsedSeconds` equal to 301,
`updateTimerDisplay` sets the progress bar to 301/3 percent, which is above
100: the ratio 301/300 is not clamped to 1. -/
theorem progress_clamp_counterexample :
    (updateTimerDisplay { Client.initial with elapsedSeconds := 301 }).progressBarWidth =
      301 / 3 ∧
    (100 : ℚ) < 301 / 3 := by
  refine ⟨?_, by norm_num⟩
  simp [updateTimerDisplay, MAX_MONITORING_SECONDS]
  norm_num

/-- C15 (amended): the width `updateTimerDisplay` writes is
`elapsedSeconds / MAX_MONITORING_SECONDS * 100`, without clamping; it is never
negative, and it is at most 100 exactly when `elapsedSeconds` is at most 300.
In every state the page reaches from loading the width shown lies between 0
and 100. -/
theorem progress_is_unclamped_ratio (c : Client) (events : List PageEvent) :
    (updateTimerDisplay c).progressBarWidth = (c.elapsedSeconds : ℚ) / 300 * 100 ∧
    0 ≤ (updateTimerDisplay c).progressBarWidth ∧
    ((updateTimerDisplay c).progressBarWidth ≤ 100 ↔ c.elapsedSeconds ≤ 300) ∧
    0 ≤ (pageRun Client.initial events).progressBarWidth ∧
    (pageRun Client.initial events).progressBarWidth ≤ 100 := by
  have ok := pageOk_run events _ pageOk_initial
  have hdef : (updateTimerDisplay c).progressBarWidth = (c.elapsedSeconds : ℚ) / 300 * 100 := by
    simp [updateTimerDisplay, MAX_MONITORING_SECONDS]
  have h0 : (0 : ℚ) ≤ (c.elapsedSeconds : ℚ) := by exact_mod_cast Nat.zero_le _
  refine ⟨hdef, ?_, ?_, ok.2.1, ok.2.2.1⟩
  · rw [hdef]; positivity
  · rw [hdef]
    constructor
    · intro h
      have : (c.elapsedSeconds : ℚ) ≤ 300 := by linarith
      exact_mod_cast this
    · intro h
      have : (c.elapsedSeconds : ℚ) ≤ 300 := by exact_mod_cast h
      linarith

/-! ## Further properties of the sessions and of the history -/

/-- C12: in every state the server reaches, after `stop-monitoring` or
`disconnect` is handled for a socket no interval is scheduled for it, its
`monitoringInterval` is cleared and the handle it held is no longer
scheduled; and when its `monitoringInterval` was already clear, handling
`stop-monitoring` changes nothing and sends nothing. -/
theorem stop_and_disconnect_cancel_timer (events : List Event) (socket : Nat) (srv : Server)
    (hs : srv = (run Server.initial events).1) :
    timersOf (step srv (.stopMonitoring socket)).1 socket = [] ∧
    (step srv (.stopMonitoring socket)).1.monitoringInterval socket = none ∧
    timersOf (step srv (.disconnect socket)).1 socket = [] ∧
    (step srv (.disconnect socket)).1.monitoringInterval socket = none ∧
    (∀ handle : Nat, srv.monitoringInterval socket = some handle →
      (handle, socket) ∈ srv.intervals ∧
      (handle, socket) ∉ (step srv (.stopMonitoring socket)).1.intervals ∧
      (handle, socket) ∉ (step srv (.disconnect socket)).1.intervals) ∧
    (srv.monitoringInterval socket = none →
      step srv (.stopMonitoring socket) = (srv, [])) := by
  have ok : TimersOk srv := by rw [hs]; exact timersOk_run events _ timersOk_initial
  have okstop := timersOk_stop srv socket ok
  have hnone : (onStopMonitoring srv socket).monitoringInterval socket = none := by
    unfold onStopMonitoring
    cases h : srv.monitoringInterval socket with
    | none => simpa using h
    | some handle => simp
  have hempty : timersOf (onStopMonitoring srv socket) socket = [] := by
    have := okstop.2.2 socket
    rw [hnone] at this
    exact this
  have hgone : ∀ handle : Nat, (handle, socket) ∉ (onStopMonitoring srv socket).intervals := by
    intro handle hmem
    have : (handle, socket) ∈ timersOf (onStopMonitoring srv socket) socket := by
      unfold timersOf
      exact List.mem_filter.mpr ⟨hmem, by simp⟩
    rw [hempty] at this
    cases this
  refine ⟨hempty, hnone, hempty, hnone, ?_, ?_⟩
  · intro handle h
    exact ⟨ok.mem_of_some h, hgone handle, hgone handle⟩
  · intro h
    simp [step, onStopMonitoring, h]

/-- Witness for C12: `stop-monitoring` from a client that never started. -/
theorem stop_and_disconnect_cancel_timer_witness :
    step (run Server.initial []).1 (.stopMonitoring 7) = ((run Server.initial []).1, []) :=
  (stop_and_disconnect_cancel_timer [] 7 _ rfl).2.2.2.2.2 rfl

theorem slice_neg_sixty {α : Type} (s : List α) : slice s (-60) = mostRecent 60 s := by
  unfold slice mostRecent
  simp only [show ((-60 : Int) < 0) from by decide, if_true]
  congr 1
  omega

/-- C13: `s.slice(-60)` is the list of the last `min 60 |s|` elements of `s` in
the same order, and the chart statements of `updateCPU`, `updateMemory` and
`updateNetwork` set labels and data to that window of the series while
returning `dataHistory` as they received it. -/
theorem chart_window_is_most_recent_sixty (h : DataHistory) (charts : Charts)
    (networkData : Option (List NetworkInfo)) (first : NetworkInfo)
    (rest : List NetworkInfo) :
    (∀ (α : Type) (s : List α),
      slice s (-60) = s.drop (s.length - min 60 s.length) ∧
      (slice s (-60)).length = min 60 s.length ∧
      ∃ older : List α, s = older ++ slice s (-60)) ∧
    (updateCPU h charts).1 = h ∧
    (updateCPU h charts).2.cpuLine =
      { labels := mostRecent 60 h.timestamps, data := mostRecent 60 h.cpu } ∧
    (updateMemory h charts).1 = h ∧
    (updateMemory h charts).2.memLine =
      { labels := mostRecent 60 h.timestamps, data := mostRecent 60 h.memory } ∧
    (updateNetwork networkData h charts).1 = h ∧
    (updateNetwork (some (first :: rest)) h charts).2.network =
      { labels := mostRecent 60 h.timestamps
        rx := mostRecent 60 h.networkRx
        tx := mostRecent 60 h.networkTx } := by
  refine ⟨?_, rfl, ?_, rfl, ?_, ?_, ?_⟩
  · intro α s
    rw [slice_neg_sixty]
    refine ⟨?_, ?_, ?_⟩
    · unfold mostRecent
      congr 1
      omega
    · rw [mostRecent_length]
      exact Nat.min_comm _ _
    · exact ⟨s.take (s.length - 60), by simp [mostRecent]⟩
  · simp [updateCPU, slice_neg_sixty]
  · simp [updateMemory, slice_neg_sixty]
  · unfold updateNetwork
    split <;> rfl
  · simp [updateNetwork, slice_neg_sixty]

theorem handleAll_history_congr (calls : List (String × Received)) :
    ∀ c c' : Client, c.isMonitoring = c'.isMonitoring → c.dataHistory = c'.dataHistory →
      (handleAll c calls).dataHistory = (handleAll c' calls).dataHistory := by
  induction calls with
  | nil => intro c c' _ h; exact h
  | cons call rest ih =>
      intro c c' hm hh
      apply ih
      · rw [handleSystemData_isMonitoring, handleSystemData_isMonitoring, hm]
      · cases hr : call.2 with
        | absent => simpa [handleSystemData] using hh
        | failed e =>
            simp only [handleSystemData, hm, hh]
            split
            · rfl
            · exact hh
        | snapshot d =>
            simp only [handleSystemData, hm, hh]
            split
            · rfl
            · exact hh

/-- C14: from any prior state `startMonitoring` leaves the seven series of
`dataHistory` empty and `elapsedSeconds` at 0; and the history after any
further `system-data` events is the same whatever the prior state was. -/
theorem start_clears_history (c c' : Client) (now now' : Nat)
    (calls : List (String × Received)) :
    (startMonitoring c now).dataHistory.cpu = [] ∧
    (startMonitoring c now).dataHistory.memory = [] ∧
    (startMonitoring c now).dataHistory.networkRx = [] ∧
    (startMonitoring c now).dataHistory.networkTx = [] ∧
    (startMonitoring c now).dataHistory.disk = [] ∧
    (startMonitoring c now).dataHistory.gpu = [] ∧
    (startMonitoring c now).dataHistory.timestamps = [] ∧
    (startMonitoring c now).elapsedSeconds = 0 ∧
    (handleAll (startMonitoring c now) calls).dataHistory =
      (handleAll (startMonitoring c' now') calls).dataHistory := by
  refine ⟨rfl, rfl, rfl, rfl, rfl, rfl, rfl, rfl, ?_⟩
  exact handleAll_history_congr calls _ _ rfl rfl

/-- The cases in which the guard of `handleSystemData` returns at once: the
payload is absent, it carries a truthy (non-empty) error message, or the page
is not monitoring, as is the case after `stopMonitoring`. The state, and with
it every series of `dataHistory`, is then as before. -/
theorem guarded_payloads_leave_state (c : Client) (timestamp error : String)
    (r : Received) (herror : error ≠ "") :
    handleSystemData c timestamp .absent = c ∧
    handleSystemData c timestamp (.failed error) = c ∧
    (c.isMonitoring = false → handleSystemData c timestamp r = c) ∧
    handleSystemData (stopMonitoring c) timestamp r = stopMonitoring c := by
  have hnot : ∀ c' : Client, c'.isMonitoring = false → handleSystemData c' timestamp r = c' := by
    intro c' h
    cases r with
    | absent => rfl
    | failed e => simp [handleSystemData, h]
    | snapshot d => simp [handleSystemData, h]
  refine ⟨rfl, by simp [handleSystemData, herror], hnot c, hnot _ ?_⟩
  simp only [stopMonitoring, stopTimer]
  split <;> rfl

/-- C4 (the code departs from the claim): after `startMonitoring`, one
`system-data` event carrying the failure payload with the empty message leaves
`timestamps` with one element and the other five series empty, so the series no
longer have one common length; a snapshot handled afterwards adds one point to
each series and the difference stays. -/
theorem empty_error_payload_misaligns_series :
    (handleAll (startMonitoring Client.initial 0)
        [("12:00:00", .failed "")]).dataHistory.timestamps = ["12:00:00"] ∧
    (handleAll (startMonitoring Client.initial 0)
        [("12:00:00", .failed "")]).dataHistory.cpu = [] ∧
    (handleAll (startMonitoring Client.initial 0)
        [("12:00:00", .failed "")]).dataHistory.memory = [] ∧
    (handleAll (startMonitoring Client.initial 0)
        [("12:00:00", .failed "")]).dataHistory.networkRx = [] ∧
    (handleAll (startMonitoring Client.initial 0)
        [("12:00:00", .failed "")]).dataHistory.networkTx = [] ∧
    (handleAll (startMonitoring Client.initial 0)
        [("12:00:00", .failed "")]).dataHistory.gpu = [] ∧
    ¬ Aligned (handleAll (startMonitoring Client.initial 0)
        [("12:00:00", .failed "")]).dataHistory ∧
    (handleAll (startMonitoring Client.initial 0)
        [("12:00:00", .failed ""),
         ("12:00:01", .snapshot (snapshotOf none none))]).dataHistory.timestamps.length = 2 ∧
    (handleAll (startMonitoring Client.initial 0)
        [("12:00:00", .failed ""),
         ("12:00:01", .snapshot (snapshotOf none none))]).dataHistory.cpu.length = 1 := by
  refine ⟨?_, ?_, ?_, ?_, ?_, ?_, ?_, ?_, ?_⟩ <;>
    simp [handleAll, handleSystemData, startMonitoring, startTimer, DataHistory.empty,
      Client.initial, Aligned, trimHistory, pushPoint, MAX_DATA_POINTS]

/-- C16 (the code departs from the claim): a provider failure with the empty
message makes the server send `{error: "", timestamp}` with `system-data`; the
page, while monitoring, does not return at the guard for it: `handleSystemData`
adds the clock reading to `timestamps` and then throws, so the payload carries
an error field and the history is not as before. -/
theorem empty_error_payload_changes_history :
    (step (run Server.initial [.startMonitoring 7]).1 (.tick 0 5 (.error ""))).2 =
      [.emitSystemData 7 (.failure "" 5)] ∧
    Received.ofPayload (.failure "" 5) = .failed "" ∧
    (handleSystemData (startMonitoring Client.initial 0) "12:00:00"
        (Received.ofPayload (.failure "" 5))).dataHistory.timestamps = ["12:00:00"] ∧
    (startMonitoring Client.initial 0).dataHistory.timestamps = [] ∧
    handleSystemData (startMonitoring Client.initial 0) "12:00:00"
        (Received.ofPayload (.failure "" 5)) ≠ startMonitoring Client.initial 0 ∧
    handleSystemDataThrows (startMonitoring Client.initial 0)
        (Received.ofPayload (.failure "" 5)) = true := by
  have h3 : (handleSystemData (startMonitoring Client.initial 0) "12:00:00"
        (Received.ofPayload (.failure "" 5))).dataHistory.timestamps = ["12:00:00"] := by
    simp [Received.ofPayload, handleSystemData, startMonitoring, startTimer,
      DataHistory.empty, Client.initial]
  have h4 : (startMonitoring Client.initial 0).dataHistory.timestamps = [] := rfl
  refine ⟨?_, rfl, h3, h4, ?_, ?_⟩
  · simp [run, step, onStartMonitoring, Server.initial, tickCallback, getSystemInfo]
  · intro heq
    rw [heq, h4] at h3
    cases h3
  · simp [Received.ofPayload, handleSystemDataThrows, startMonitoring, startTimer]

end SystemMonitor
